import Mathlib

/-!
Verification of the connection state machine, command-correlation layer and
ADB device-presence tracker of the android-mock-location-mcp server.

The device module (`src/unnamed/part_003`, mirrored by `src/unnamed/part_002`
and `src/server/src/device.ts`) is embedded as an explicit event-step machine:
module-level mutable state becomes the `Device.MState` record, every public
operation and every socket/timer callback becomes one case of `Device.step`,
and the single-threaded event loop is modelled by applying steps in sequence.
Socket handles are generation numbers indexing into `MState.socks`; the
closure-scoped per-socket variables (`socketBuffer`, `cleanupCalled`, the
connect timer) live in `Device.SockInfo`.  `JSON.parse` and `randomUUID` are
platform primitives and are modelled as oracles: a parse function parameter
and an id carried by the send event (with a freshness side condition).
`Device.validEvent` encodes which events the Node runtime can actually
deliver (for example, a destroyed socket emits no further `connect` or
`data` events, and a timer that is not armed cannot fire).

The tracker (`src/server/src/adb.ts`, second file: the `track-devices`
client) is embedded the same way in the `Tracker` namespace; its device-list
diffing is the pure function `Tracker.processDeviceList`.
-/

namespace GeoMCP

/-- A JavaScript `Error` value, reduced to its message. -/
structure Err where
  message : String
deriving DecidableEq

/-- A thrown JavaScript value: either an `Error` or some other value
(carried as its string rendering). -/
inductive Thrown
  | isError (e : Err)
  | notError (text : String)
deriving DecidableEq

/-- Model of `err instanceof Error ? err : new Error(String(err))`. -/
def wrapThrown : Thrown → Err
  | .isError e => e
  | .notError t => ⟨t⟩

/-- A JavaScript value as produced by `JSON.parse` on a frame line. -/
inductive Json
  | jsNull
  | jsBool (flag : Bool)
  | jsNumber (intVal : Int)
  | jsString (text : String)
  | jsArray (items : List Json)
  | jsObject (props : List (String × Json))

/-- Property access `parsed.key` on a parsed JSON object. -/
def jsonObjLookup (props : List (String × Json)) (key : String) : Option Json :=
  match props with
  | [] => none
  | (k, v) :: rest => if k == key then some v else jsonObjLookup rest key

/-- Model of `const id = parsed.id as string | undefined; if (id && ...)`:
the `id` field read off a parsed frame, `none` unless it is a truthy
(non-empty) string.  A non-string `id` can never equal a UUID key of the
pending map, so it behaves like `none` for the handler. -/
def jsonId : Json → Option String
  | .jsObject props =>
      match jsonObjLookup props "id" with
      | some (.jsString s) => if s.data.isEmpty then none else some s
      | _ => none
  | _ => none

/-- Split a character list at every newline, like `String.prototype.split("\n")`
(always returns at least one element). -/
def splitOnNl : List Char → List (List Char)
  | [] => [[]]
  | c :: rest =>
      let r := splitOnNl rest
      if c == '\n' then [] :: r
      else
        match r with
        | [] => [[c]]
        | l :: ls => (c :: l) :: ls

/-- Model of `str.split("\n")`. -/
def splitLines (s : String) : List String :=
  (splitOnNl s.data).map String.mk

/-- Model of the truthiness test `!line.trim()`: true iff the string is
empty or all whitespace. -/
def isBlank (s : String) : Bool := s.data.all Char.isWhitespace

/-- JavaScript string truthiness of a nullable string (`!targetDeviceId`):
falsy when absent or empty. -/
def strFalsy (o : Option String) : Bool :=
  match o with
  | none => true
  | some t => t.data.isEmpty

end GeoMCP

namespace GeoMCP.Device

/-- The `ConnectionState` union type of the device module. -/
inductive ConnState
  | disconnected
  | connecting
  | connected
  | waitingForDevice
deriving DecidableEq

/-- Per-socket data: the closure parameter `deviceId` of
`setupSocketHandlers`, the runtime `destroyed` flag, the closure variables
`cleanupCalled` and `socketBuffer`, the closure `connectTimer`, and a
runtime flag recording that the `connect` event has already been emitted
(a TCP socket emits `connect` at most once). -/
structure SockInfo where
  deviceId : String
  destroyed : Bool
  cleanupCalled : Bool
  buffer : String
  connectTimer : Bool
  connectFired : Bool
deriving DecidableEq, Inhabited

/-- The module-level mutable state of `src/unnamed/part_003`:
`state`, `socket` (a generation index into `socks`, `none` for `null`),
`connectedDeviceId`, `targetDeviceId`, the two reconnect timers (storing
the `deviceId` their callbacks captured; `none` means inactive), the
`pendingRequests` keys in insertion order, and whether `onDisconnect`
registered a callback. -/
structure MState where
  state : ConnState
  socket : Option Nat
  socks : List SockInfo
  connectedDeviceId : Option String
  targetDeviceId : Option String
  retryTimer : Option String
  trackerReconnectTimer : Option String
  pending : List String
  cbRegistered : Bool
deriving DecidableEq

/-- Observable side effects of one callback turn: settling a pending
command's promise, cancelling its deadline timer, invoking the disconnect
callback, logging, and settling the promise returned by the public
operations. -/
inductive Effect
  | resolveReq (id : String) (value : Json)
  | rejectReq (id : String) (e : Err)
  | clearCmdTimer (id : String)
  | disconnectCb
  | logErr (message : String)
  | connectResolve
  | connectReject (e : Err)
  | sendNotConnected (e : Err)

/-- Events a run of the module can experience: the public operations
(with oracle parameters for `adb forward` success, callback exceptions,
`randomUUID` output and `sock.write` outcome) and the socket/timer
callbacks the runtime delivers. -/
inductive Event
  | registerCb
  | connectDev (deviceId : String) (forwardOk : Bool) (cbThrows : Bool)
  | sendCmd (id : String) (writeErr : Option Thrown)
  | sockConnect (sid : Nat)
  | sockData (sid : Nat) (chunk : String)
  | sockError (sid : Nat)
  | sockClose (sid : Nat) (trackerAnswer : Option String) (cbThrows : Bool)
  | connectTimeout (sid : Nat)
  | cmdTimeout (id : String)
  | retryFire (forwardOk : Bool) (trackerAnswer : Option String)
  | trackerFire (forwardOk : Bool)
  | trackerEvent (deviceId : String) (devState : String)
  | shutdown

def getSock (s : MState) (sid : Nat) : SockInfo := s.socks.getD sid default

def updateSock (s : MState) (sid : Nat) (f : SockInfo → SockInfo) : MState :=
  { s with socks := s.socks.set sid (f (getSock s sid)) }

/-- Model of `clearAllTimers`. -/
def clearAllTimers (s : MState) : MState :=
  { s with retryTimer := none, trackerReconnectTimer := none }

/-- Model of nulling the socket reference before destroying the old handle
(`socket = null; connectedDeviceId = null; if (oldSocket && !oldSocket.destroyed)
oldSocket.destroy()`). -/
def destroyCurrentSocket (s : MState) : MState :=
  let s2 := { s with socket := none, connectedDeviceId := none }
  match s.socket with
  | none => s2
  | some sid => updateSock s2 sid (fun i => { i with destroyed := true })

/-- Character class of the device-id regex `^[a-zA-Z0-9._:\x2d]+$`. -/
def isDeviceIdChar (c : Char) : Bool :=
  c.isAlpha || c.isDigit || c == '.' || c == '_' || c == ':' || c == '-'

/-- Model of `/^[a-zA-Z0-9._:\x2d]+$/.test(deviceId)`. -/
def validDeviceId (deviceId : String) : Bool :=
  !deviceId.data.isEmpty && deviceId.data.all isDeviceIdChar

def forwardFailMsg (deviceId : String) : String :=
  "Failed to set up adb port forwarding for " ++ deviceId

/-- The fresh per-socket closure state created by `new net.Socket()` plus
`setupSocketHandlers`. -/
def newSockInfo (deviceId : String) : SockInfo :=
  { deviceId := deviceId, destroyed := false, cleanupCalled := false, buffer := "",
    connectTimer := true, connectFired := false }

/-- The success tail of `transitionToConnecting`: create the socket, store
it, then set `state = "connecting"`. -/
def attachNewSocket (deviceId : String) (s : MState) : MState :=
  { s with socks := s.socks ++ [newSockInfo deviceId],
           socket := some s.socks.length, state := .connecting }

/-- Model of `transitionToConnecting`.  Returns the state after whatever
mutations happened before a throw, plus the thrown error if any.  The
device-id validation throws before any mutation; the `adb forward` failure
throws after the timers were cleared and the old socket destroyed; on
success a fresh socket is created and stored and only then is
`state = "connecting"` set, with the connect-timeout timer armed. -/
def transitionToConnecting (deviceId : String) (forwardOk : Bool) (s : MState) :
    MState × Option Err :=
  if !validDeviceId deviceId then
    (s, some ⟨"Invalid device ID: " ++ deviceId⟩)
  else
    let s1 := destroyCurrentSocket (clearAllTimers s)
    if !forwardOk then
      (s1, some ⟨forwardFailMsg deviceId⟩)
    else
      (attachNewSocket deviceId s1, none)

/-- Model of the guarded `disconnectCallback?.()` call sites: the optional
callback is invoked inside try/catch, so a throwing callback produces a
logged error instead of propagating. -/
def notifyDisconnect (s : MState) (cbThrows : Bool) : List Effect :=
  if s.cbRegistered then
    if cbThrows then [.logErr "Disconnect callback error"] else [.disconnectCb]
  else []

/-- Model of `socket && !socket.destroyed` for the currently stored socket. -/
def socketLive (s : MState) : Bool :=
  match s.socket with
  | some sid => !(getSock s sid).destroyed
  | none => false

/-- Model of `connectToDevice`: clears both timers, short-circuits when
already connected to this exact device with a live socket, notifies the
disconnect callback when switching away from a live connection, records
the target, and attempts the connecting transition, falling back to
`waiting_for_device` when it throws. -/
def connectDevStep (deviceId : String) (forwardOk cbThrows : Bool) (s : MState) :
    MState × List Effect :=
  let s := clearAllTimers s
  if s.state == .connected && s.connectedDeviceId == some deviceId && socketLive s then
    (s, [.connectResolve])
  else
    let effs := if s.state == .connected then notifyDisconnect s cbThrows else []
    let s := { s with targetDeviceId := some deviceId }
    match transitionToConnecting deviceId forwardOk s with
    | (s2, some e) => ({ s2 with state := .waitingForDevice }, effs ++ [.connectReject e])
    | (s2, none) => (s2, effs)

def notConnectedMsg : String :=
  "Not connected to device. Troubleshooting: " ++
    "(1) Call geo_connect_device with the device serial from geo_list_devices. " ++
    "(2) Verify the GeoMCP Agent service is running in the app (green indicator). " ++
    "(3) Check adb port forwarding: run `adb forward tcp:5005 tcp:5005`."

def timeoutMsg : String :=
  "Command timed out. Troubleshooting: " ++
    "(1) Verify the GeoMCP Agent service is running in the app (green indicator). " ++
    "(2) Restart adb port forwarding: `adb forward tcp:5005 tcp:5005`. " ++
    "(3) Check agent logs: `adb logcat -s GeoMCP`."

def closedMsg : String :=
  "Socket closed. The device may have disconnected. " ++
    "Reconnection will be attempted automatically when the device is available."

def shutdownMsg : String := "Device module shutting down."

/-- Model of `pendingRequests.set id`: a JS `Map.set` keeps an existing
key in place and appends a fresh key. -/
def mapAdd (pending : List String) (id : String) : List String :=
  if pending.contains id then pending else pending ++ [id]

/-- Model of `sendCommand`: immediate rejection unless a live socket is
stored and `state === "connected"`; otherwise the fresh id is registered
with its deadline timer and the framed message written, a throwing write
cancelling the timer, deleting the entry and rejecting with the (wrapped)
thrown value. -/
def sendCmdStep (id : String) (writeErr : Option Thrown) (s : MState) :
    MState × List Effect :=
  match s.socket with
  | none => (s, [.sendNotConnected ⟨notConnectedMsg⟩])
  | some sid =>
    if (getSock s sid).destroyed || s.state != .connected then
      (s, [.sendNotConnected ⟨notConnectedMsg⟩])
    else
      let s1 := { s with pending := mapAdd s.pending id }
      match writeErr with
      | none => (s1, [])
      | some t =>
          ({ s1 with pending := s1.pending.erase id },
           [.clearCmdTimer id, .rejectReq id (wrapThrown t)])

/-- Model of the socket `connect` handler: clear the connect timer, then
the stale-socket guard, then `state = "connected"` with the closure device
id recorded. -/
def sockConnectStep (sid : Nat) (s : MState) : MState × List Effect :=
  let s := updateSock s sid (fun i => { i with connectTimer := false, connectFired := true })
  if s.socket != some sid then (s, [])
  else
    ({ s with
        state := .connected,
        connectedDeviceId := some (getSock s sid).deviceId }, [])

/-- Model of one iteration of the data handler's per-line loop: blank lines
are skipped, unparseable lines ignored, and a parsed object whose truthy
string `id` matches a live pending command resolves it (cancelling its
deadline timer and deleting the entry). -/
def processLine (p : String → Option Json) (line : String) (pending : List String) :
    List String × List Effect :=
  if isBlank line then (pending, [])
  else
    match p line with
    | none => (pending, [])
    | some parsed =>
        match jsonId parsed with
        | some id =>
            if pending.contains id then
              (pending.erase id, [.clearCmdTimer id, .resolveReq id parsed])
            else (pending, [])
        | none => (pending, [])

def processLines (p : String → Option Json) (lines : List String)
    (pending : List String) : List String × List Effect :=
  match lines with
  | [] => (pending, [])
  | l :: rest =>
      let r1 := processLine p l pending
      let r2 := processLines p rest r1.1
      (r2.1, r1.2 ++ r2.2)

/-- Model of the socket `data` handler: append the chunk to the per-socket
buffer, split on newlines, keep the trailing incomplete part, process each
complete line.  Note: this handler has no stale-socket guard in the source;
it acts on the shared `pendingRequests` map for whatever socket it belongs
to (a superseded socket is always destroyed, so the runtime delivers no
further data to it). -/
def sockDataStep (p : String → Option Json) (sid : Nat) (chunk : String)
    (s : MState) : MState × List Effect :=
  let lines := splitLines ((getSock s sid).buffer ++ chunk)
  let r := processLines p lines.dropLast s.pending
  (updateSock { s with pending := r.1 } sid
      (fun i => { i with buffer := lines.getLastD "" }), r.2)

/-- Model of the socket `error` handler: log and `sock.destroy()` so that
`close` is guaranteed to fire. -/
def sockErrorStep (sid : Nat) (s : MState) : MState × List Effect :=
  (updateSock s sid (fun i => { i with destroyed := true }), [.logErr "Socket error"])

/-- Model of the connect-timeout timer firing: it destroys the socket
(the destroyed flag is set synchronously; the `close` event arrives in a
later turn). -/
def connectTimeoutStep (sid : Nat) (s : MState) : MState × List Effect :=
  (updateSock s sid (fun i => { i with connectTimer := false, destroyed := true }), [])

/-- Model of `scheduleRetry`: replace any existing retry timer with one
capturing `deviceId`. -/
def scheduleRetry (deviceId : String) (s : MState) : MState :=
  { s with retryTimer := some deviceId }

/-- Model of `scheduleTrackerReconnect`. -/
def scheduleTrackerReconnect (deviceId : String) (s : MState) : MState :=
  { s with trackerReconnectTimer := some deviceId }

/-- Model of `checkTrackerForDevice`, with the tracker's
`getKnownDeviceState(targetDeviceId)` answer passed as an oracle. -/
def checkTrackerForDevice (trackerAnswer : Option String) (s : MState) : MState :=
  if s.state == .waitingForDevice && !strFalsy s.targetDeviceId then
    match s.targetDeviceId with
    | some t => if trackerAnswer == some "device" then scheduleTrackerReconnect t s else s
    | none => s
  else s

/-- Model of the socket `close` handler: clear the connect timer; the
`cleanupCalled` and stale-socket guards; bulk-reject all pending commands;
record whether the session had reached `connected`; null the reference;
notify the disconnect callback only if it had; `disconnected` when no
target is recorded, else `waiting_for_device` with a quick retry only
after a real connection, then the tracker stuck-state check.  The runtime
guarantees the socket is destroyed by the time `close` fires. -/
def sockCloseStep (sid : Nat) (trackerAnswer : Option String) (cbThrows : Bool)
    (s : MState) : MState × List Effect :=
  let s := updateSock s sid (fun i => { i with connectTimer := false, destroyed := true })
  if (getSock s sid).cleanupCalled then (s, [])
  else
    let s := updateSock s sid (fun i => { i with cleanupCalled := true })
    if s.socket != some sid then (s, [])
    else
      let rejEffs := s.pending.foldr
        (fun id acc => .clearCmdTimer id :: .rejectReq id ⟨closedMsg⟩ :: acc) []
      let wasConnected := s.state == .connected
      let s := { s with pending := [], socket := none, connectedDeviceId := none }
      let cbEffs := if wasConnected then notifyDisconnect s cbThrows else []
      if strFalsy s.targetDeviceId then
        ({ s with state := .disconnected }, rejEffs ++ cbEffs)
      else
        let s := { s with state := .waitingForDevice }
        let s := if wasConnected then scheduleRetry (getSock s sid).deviceId s else s
        (checkTrackerForDevice trackerAnswer s, rejEffs ++ cbEffs)

/-- Model of a per-command deadline timer firing: delete the entry and
reject with the timeout error. -/
def cmdTimeoutStep (id : String) (s : MState) : MState × List Effect :=
  ({ s with pending := s.pending.erase id }, [.rejectReq id ⟨timeoutMsg⟩])

/-- Model of the retry-timer callback: null the handle, bail unless still
waiting for this same target, then attempt the connecting transition,
staying in `waiting_for_device` and re-checking the tracker on failure. -/
def retryFireStep (forwardOk : Bool) (trackerAnswer : Option String) (s : MState) :
    MState × List Effect :=
  match s.retryTimer with
  | none => (s, [])
  | some deviceId =>
    let s := { s with retryTimer := none }
    if s.state != .waitingForDevice then (s, [])
    else if s.targetDeviceId != some deviceId then (s, [])
    else
      match transitionToConnecting deviceId forwardOk s with
      | (s2, none) => (s2, [])
      | (s2, some _) =>
          (checkTrackerForDevice trackerAnswer { s2 with state := .waitingForDevice }, [])

/-- Model of the tracker-reconnect timer callback: like the retry timer,
but a failure is logged and only the safe state restored. -/
def trackerFireStep (forwardOk : Bool) (s : MState) : MState × List Effect :=
  match s.trackerReconnectTimer with
  | none => (s, [])
  | some deviceId =>
    let s := { s with trackerReconnectTimer := none }
    if s.state != .waitingForDevice then (s, [])
    else if s.targetDeviceId != some deviceId then (s, [])
    else
      match transitionToConnecting deviceId forwardOk s with
      | (s2, none) => (s2, [])
      | (s2, some e) =>
          ({ s2 with state := .waitingForDevice },
           [.logErr ("ADB tracker: reconnect failed for " ++ deviceId ++ ": " ++ e.message)])

/-- Model of `handleTrackerEvent`. -/
def handleTrackerEventStep (deviceId devState : String) (s : MState) :
    MState × List Effect :=
  if devState == "device" && s.targetDeviceId == some deviceId
      && s.state == .waitingForDevice then
    (scheduleTrackerReconnect deviceId s, [])
  else (s, [])

/-- Model of `shutdownDevice`. -/
def shutdownStep (s : MState) : MState × List Effect :=
  let s := destroyCurrentSocket (clearAllTimers s)
  let rejEffs := s.pending.foldr
    (fun id acc => .clearCmdTimer id :: .rejectReq id ⟨shutdownMsg⟩ :: acc) []
  ({ s with
      pending := [], connectedDeviceId := none, targetDeviceId := none,
      state := .disconnected }, rejEffs)

/-- Model of `onDisconnect`. -/
def registerCbStep (s : MState) : MState × List Effect :=
  ({ s with cbRegistered := true }, [])

/-- One callback turn of the module.  `p` is the `JSON.parse` oracle. -/
def step (p : String → Option Json) : Event → MState → MState × List Effect
  | .registerCb => registerCbStep
  | .connectDev d fwd cb => connectDevStep d fwd cb
  | .sendCmd id w => sendCmdStep id w
  | .sockConnect sid => sockConnectStep sid
  | .sockData sid chunk => sockDataStep p sid chunk
  | .sockError sid => sockErrorStep sid
  | .sockClose sid ans cb => sockCloseStep sid ans cb
  | .connectTimeout sid => connectTimeoutStep sid
  | .cmdTimeout id => cmdTimeoutStep id
  | .retryFire fwd ans => retryFireStep fwd ans
  | .trackerFire fwd => trackerFireStep fwd
  | .trackerEvent d st => handleTrackerEventStep d st
  | .shutdown => shutdownStep

/-- Which events the Node runtime can deliver in a given state: a socket
emits `connect` at most once and only while not destroyed, emits `data`
only while not destroyed, timers fire only while armed, and `randomUUID`
never repeats a live correlation id. -/
def validEvent (s : MState) : Event → Bool
  | .sockConnect sid =>
      decide (sid < s.socks.length) && !(getSock s sid).destroyed
        && !(getSock s sid).connectFired
  | .sockData sid _ => decide (sid < s.socks.length) && !(getSock s sid).destroyed
  | .sockError sid => decide (sid < s.socks.length)
  | .sockClose sid _ _ => decide (sid < s.socks.length)
  | .connectTimeout sid => decide (sid < s.socks.length) && (getSock s sid).connectTimer
  | .cmdTimeout id => s.pending.contains id
  | .retryFire _ _ => s.retryTimer.isSome
  | .trackerFire _ => s.trackerReconnectTimer.isSome
  | .sendCmd id _ => !(s.pending.contains id)
  | _ => true

/-- The module's initial state (all module-level variables as initialised). -/
def initState : MState :=
  { state := .disconnected, socket := none, socks := [], connectedDeviceId := none,
    targetDeviceId := none, retryTimer := none, trackerReconnectTimer := none,
    pending := [], cbRegistered := false }

/-- States the module can be observed in between callback turns. -/
inductive Reachable (p : String → Option Json) : MState → Prop
  | init : Reachable p initState
  | next (s : MState) (e : Event) : Reachable p s → validEvent s e = true →
      Reachable p (step p e s).1

/-- Run a sequence of events, discarding effects. -/
def runEvents (p : String → Option Json) (es : List Event) (s : MState) : MState :=
  es.foldl (fun s e => (step p e s).1) s

end GeoMCP.Device

namespace GeoMCP.Tracker

/-- A device attach/detach/state-change event emitted by the tracker
(`DeviceEvent` of `adb-tracker`): `previous` is `none` for `null`. -/
structure DeviceEvent where
  deviceId : String
  devState : String
  previous : Option String
deriving DecidableEq

/-- Per-socket closure state of `connectToAdb`: the runtime destroyed flag
plus the closure variables `buffer`, `receivedOkay`, `expectingLength`,
`payloadLength` and `cleanupCalled`. -/
structure TSock where
  destroyed : Bool
  buffer : String
  receivedOkay : Bool
  expectingLength : Bool
  payloadLength : Nat
  cleanupCalled : Bool
deriving DecidableEq, Inhabited

/-- Module-level state of `adb-tracker`: `trackerSocket` (a generation
index, `none` for `null`), `knownDevices` in insertion order, the 5-second
`retryTimer` (armed or not), `active`, and whether `eventListener` is
non-null. -/
structure TState where
  trackerSocket : Option Nat
  socks : List TSock
  knownDevices : List (String × String)
  retryTimer : Bool
  active : Bool
  listener : Bool
deriving DecidableEq

/-- Observable tracker effects: an event delivered to the listener, a
caught-and-logged listener exception, or a logged protocol error. -/
inductive TEffect
  | emit (ev : DeviceEvent)
  | listenerErr
  | logErr (msg : String)
deriving DecidableEq

def RETRY_DELAY_MS : Nat := 5000

def getTSock (s : TState) (sid : Nat) : TSock := s.socks.getD sid default

def updateTSock (s : TState) (sid : Nat) (f : TSock → TSock) : TState :=
  { s with socks := s.socks.set sid (f (getTSock s sid)) }

/-- Model of `knownDevices.get(id)` (JS `Map.get`). -/
def lookupKV (m : List (String × String)) (k : String) : Option String :=
  match m with
  | [] => none
  | (k2, v) :: rest => if k2 == k then some v else lookupKV rest k

/-- Model of `updated.set(k, v)` (JS `Map.set`: an existing key keeps its
position, a fresh key is appended). -/
def mapSet (m : List (String × String)) (k v : String) : List (String × String) :=
  match m with
  | [] => [(k, v)]
  | (k2, v2) :: rest => if k2 == k then (k, v) :: rest else (k2, v2) :: mapSet rest k v

/-- Model of `line.trim()` on an ASCII payload line. -/
def trimAscii (l : List Char) : List Char :=
  ((l.dropWhile Char.isWhitespace).reverse.dropWhile Char.isWhitespace).reverse

/-- One line of a `track-devices` payload folded into the fresh mapping:
trim, skip blank lines, and when the first tab sits at a positive index
(`tabIndex > 0`) record the part before it as id and the part after it as
state. -/
def snapshotLine (m : List (String × String)) (lineChars : List Char) :
    List (String × String) :=
  let t := trimAscii lineChars
  if t.isEmpty then m
  else
    let idPart := t.takeWhile (fun c => c != '\t')
    match t.dropWhile (fun c => c != '\t') with
    | [] => m
    | _ :: stPart =>
        if idPart.isEmpty then m
        else mapSet m (String.mk idPart) (String.mk stPart)

/-- The id-to-state map built from one `track-devices` payload: split on
newlines and fold every line into a fresh mapping. -/
def parseSnapshot (payload : String) : List (String × String) :=
  (splitOnNl payload.data).foldl snapshotLine []

/-- The diff of one snapshot against the previously known mapping, in
emission order: first, for each id of the new mapping whose state differs
from (or is absent in) the old one, a change event carrying the old state
(or `none`); then, for each id only in the old mapping, an `offline`
event carrying its previous state. -/
def diffEvents (old upd : List (String × String)) : List DeviceEvent :=
  (upd.filterMap fun e =>
      let prev := lookupKV old e.1
      if prev == some e.2 then none else some ⟨e.1, e.2, prev⟩)
  ++ (old.filterMap fun e =>
      if (lookupKV upd e.1).isSome then none else some ⟨e.1, "offline", some e.2⟩)

/-- Model of `emitEvent`: the listener call is wrapped in try/catch, so a
throwing listener produces a logged error instead of propagating.  `lt`
is the oracle saying which events make the listener throw. -/
def emitEvent (lt : DeviceEvent → Bool) (ev : DeviceEvent) : TEffect :=
  if lt ev then .listenerErr else .emit ev

/-- Model of `processDeviceList`: build the fresh mapping, emit the diff
against the pre-update mapping when a listener is registered, then replace
the stored mapping with the new one. -/
def processDeviceList (lt : DeviceEvent → Bool) (payload : String) (s : TState) :
    TState × List TEffect :=
  let upd := parseSnapshot payload
  let effs := if s.listener then (diffEvents s.knownDevices upd).map (emitEvent lt) else []
  ({ s with knownDevices := upd }, effs)

/-- Value of one hexadecimal digit, in either case, as `parseInt` with
base 16 accepts them. -/
def hexDigit (c : Char) : Option Nat :=
  if c.isDigit then some (c.toNat - 48)
  else
    let lower := c.toLower
    if 'a' ≤ lower && lower ≤ 'f' then some (lower.toNat - 87)
    else none

def hexPrefixVal : List Char → Nat → Nat × Bool
  | [], acc => (acc, false)
  | c :: rest, acc =>
      match hexDigit c with
      | some d => ((hexPrefixVal rest (acc * 16 + d)).1, true)
      | none => (acc, false)

/-- Model of `parseInt(str, 16)` on the 4-character length prefix: skip
leading whitespace, honour an optional sign and `0x`/`0X` prefix, read the
longest run of leading hex digits, `NaN` (here `none`) when there is
none. -/
def parseIntHex (l : List Char) : Option Int :=
  let l := l.dropWhile Char.isWhitespace
  let signed : Bool × List Char :=
    match l with
    | '-' :: rest => (true, rest)
    | '+' :: rest => (false, rest)
    | _ => (false, l)
  let body :=
    match signed.2 with
    | '0' :: 'x' :: rest => rest
    | '0' :: 'X' :: rest => rest
    | other => other
  match hexPrefixVal body 0 with
  | (_, false) => none
  | (n, true) => some (if signed.1 then -(n : Int) else (n : Int))

def destroyTSock (s : TState) (sid : Nat) : TState :=
  updateTSock s sid (fun i => { i with destroyed := true })

/-- Model of the `for (;;)` framing loop of the tracker's data handler:
read a 4-hex-digit length prefix, treating a `NaN` or negative parse as a
fatal framing error (log, destroy, stop), then the payload once complete,
handing each full payload to `processDeviceList`.  `fuel` bounds the
iteration count; every completed prefix-plus-payload round consumes at
least four buffered characters, so `buffer.length + 2` is always enough. -/
def trackLoop (lt : DeviceEvent → Bool) (sid : Nat) : Nat → TState → TState × List TEffect
  | 0, s => (s, [])
  | fuel + 1, s =>
    let info := getTSock s sid
    if info.expectingLength then
      if info.buffer.data.length < 4 then (s, [])
      else
        match parseIntHex (info.buffer.data.take 4) with
        | none =>
            (destroyTSock s sid,
             [.logErr "ADB tracker: malformed length prefix, disconnecting"])
        | some n =>
            if n < 0 then
              (destroyTSock s sid,
               [.logErr "ADB tracker: malformed length prefix, disconnecting"])
            else
              let s := updateTSock s sid (fun i =>
                { i with buffer := String.mk (i.buffer.data.drop 4),
                         expectingLength := false, payloadLength := n.toNat })
              trackLoop lt sid fuel s
    else
      if info.buffer.data.length < info.payloadLength then (s, [])
      else
        let payload := String.mk (info.buffer.data.take info.payloadLength)
        let s := updateTSock s sid (fun i =>
          { i with buffer := String.mk (i.buffer.data.drop i.payloadLength),
                   expectingLength := true })
        let r1 := processDeviceList lt payload s
        let r2 := trackLoop lt sid fuel r1.1
        (r2.1, r1.2 ++ r2.2)

/-- Model of the tracker socket's `data` handler: buffer the chunk,
consume the initial `OKAY`/`FAIL` status (destroying the socket on
anything but `OKAY`), then run the framing loop. -/
def tdataStep (lt : DeviceEvent → Bool) (sid : Nat) (chunk : String) (s : TState) :
    TState × List TEffect :=
  let s := updateTSock s sid (fun i => { i with buffer := i.buffer ++ chunk })
  let info := getTSock s sid
  if !info.receivedOkay then
    if info.buffer.data.length < 4 then (s, [])
    else
      let status := String.mk (info.buffer.data.take 4)
      let s := updateTSock s sid (fun i =>
        { i with buffer := String.mk (i.buffer.data.drop 4) })
      if status != "OKAY" then
        (destroyTSock s sid, [.logErr ("ADB track-devices rejected (" ++ status ++ ")")])
      else
        let s := updateTSock s sid (fun i => { i with receivedOkay := true })
        trackLoop lt sid ((getTSock s sid).buffer.data.length + 2) s
  else
    trackLoop lt sid ((getTSock s sid).buffer.data.length + 2) s

/-- Model of `connectToAdb`: bail when inactive, clear the stale device
cache, destroy any previous socket, then create and store a fresh one. -/
def connectToAdb (s : TState) : TState :=
  if !s.active then s
  else
    let s := { s with knownDevices := [] }
    let s :=
      match s.trackerSocket with
      | some sid => { destroyTSock s sid with trackerSocket := none }
      | none => s
    { s with
        socks := s.socks ++ [{ destroyed := false, buffer := "", receivedOkay := false,
                               expectingLength := true, payloadLength := 0,
                               cleanupCalled := false }],
        trackerSocket := some s.socks.length }

/-- Model of `scheduleRetry`: arm the 5-second reconnect timer unless
tracking stopped or it is already armed. -/
def scheduleRetry (s : TState) : TState :=
  if !s.active || s.retryTimer then s else { s with retryTimer := true }

/-- Model of `handleGone`, shared by the socket's `error` and `close`
handlers: dedup via `cleanupCalled`, ignore superseded sockets, then drop
the socket reference and schedule the retry. -/
def goneStep (sid : Nat) (s : TState) : TState × List TEffect :=
  if (getTSock s sid).cleanupCalled then (s, [])
  else
    let s := updateTSock s sid (fun i => { i with cleanupCalled := true })
    if s.trackerSocket != some sid then (s, [])
    else
      (scheduleRetry { s with trackerSocket := none }, [])

/-- Model of the retry timer firing: null the handle and reconnect. -/
def retryFireStep (s : TState) : TState × List TEffect :=
  if !s.retryTimer then (s, [])
  else (connectToAdb { s with retryTimer := false }, [])

/-- Model of `startTracking`. -/
def startTrackingStep (s : TState) : TState :=
  if s.active then { s with listener := true }
  else connectToAdb { s with active := true, listener := true }

/-- Model of `stopTracking`. -/
def stopTrackingStep (s : TState) : TState :=
  let s := { s with active := false, listener := false, retryTimer := false }
  let s :=
    match s.trackerSocket with
    | some sid => { destroyTSock s sid with trackerSocket := none }
    | none => s
  { s with knownDevices := [] }

/-- Model of `getKnownDeviceState`. -/
def getKnownDeviceState (s : TState) (deviceId : String) : Option String :=
  lookupKV s.knownDevices deviceId

/-- The tracker's initial module state. -/
def initTState : TState :=
  { trackerSocket := none, socks := [], knownDevices := [], retryTimer := false,
    active := false, listener := false }

end GeoMCP.Tracker

namespace GeoMCP.Device

theorem getSock_updateSock_self (s : MState) (sid : Nat) (f : SockInfo → SockInfo)
    (h : sid < s.socks.length) :
    getSock (updateSock s sid f) sid = f (getSock s sid) := by
  simp [getSock, updateSock, List.getElem?_set_self h]

theorem getSock_updateSock_ne (s : MState) (sid j : Nat) (f : SockInfo → SockInfo)
    (h : sid ≠ j) :
    getSock (updateSock s sid f) j = getSock s j := by
  simp [getSock, updateSock, List.getElem?_set_ne h]

theorem socks_length_updateSock (s : MState) (sid : Nat) (f : SockInfo → SockInfo) :
    (updateSock s sid f).socks.length = s.socks.length := by
  simp [updateSock]

/-- All superseded sockets are destroyed: a socket that exists but is not
the currently stored one has its destroyed flag set. -/
def SockInv (s : MState) : Prop :=
  ∀ i, i < s.socks.length → s.socket ≠ some i → (getSock s i).destroyed = true

/-- The provable core of the session/state coupling, together with the
timer discipline of `connecting` entry and the superseded-socket fact:
while `connecting` or `connected` a socket reference is always held, a
`connecting` state always has both reconnect timers inactive, and every
superseded socket is destroyed. -/
def StateInv (s : MState) : Prop :=
  ((s.state = .connecting ∨ s.state = .connected) → s.socket.isSome)
  ∧ (s.state = .connecting → s.retryTimer = none ∧ s.trackerReconnectTimer = none)
  ∧ SockInv s

theorem sockInv_updateSock_keep (s : MState) (sid : Nat) (f : SockInfo → SockInfo)
    (hf : ∀ i, i.destroyed = true → (f i).destroyed = true) (h : SockInv s) :
    SockInv (updateSock s sid f) := by
  intro i hi hne
  simp only [socks_length_updateSock] at hi
  simp only [updateSock] at hne ⊢
  by_cases hij : sid = i
  · subst hij
    rw [show ({ s with socks := s.socks.set sid (f (getSock s sid)) } : MState) =
        updateSock s sid f from rfl, getSock_updateSock_self s sid f hi]
    exact hf _ (h sid hi hne)
  · rw [show ({ s with socks := s.socks.set sid (f (getSock s sid)) } : MState) =
        updateSock s sid f from rfl, getSock_updateSock_ne s sid i f hij]
    exact h i hi hne

theorem sockInv_destroyCurrent (s : MState) (h : SockInv s) :
    SockInv (destroyCurrentSocket s) := by
  intro i hi _
  unfold destroyCurrentSocket
  cases hs : s.socket with
  | none =>
      simp only [hs]
      have := h i (by simpa [destroyCurrentSocket, hs] using hi) (by simp [hs])
      simpa [getSock] using this
  | some sid =>
      simp only [hs]
      by_cases hij : sid = i
      · subst hij
        rw [getSock_updateSock_self]
        simpa [destroyCurrentSocket, hs, updateSock] using hi
      · rw [getSock_updateSock_ne _ _ _ _ hij]
        have hlen : i < s.socks.length := by
          simpa [destroyCurrentSocket, hs, updateSock] using hi
        exact h i hlen (by simp [hs, Ne.symm hij] at *; omega)

end GeoMCP.Device

namespace GeoMCP.Device

theorem getSock_append_lt (s : MState) (info : SockInfo) (i : Nat)
    (h : i < s.socks.length) :
    getSock { s with socks := s.socks ++ [info] } i = getSock s i := by
  simp [getSock, List.getElem?_append_left h]

theorem sockInv_clearAllTimers (s : MState) (h : SockInv s) :
    SockInv (clearAllTimers s) := by
  intro i hi hne
  exact h i (by simpa [clearAllTimers] using hi) (by simpa [clearAllTimers] using hne)

theorem destroyCurrent_socket_none (s : MState) :
    (destroyCurrentSocket s).socket = none := by
  unfold destroyCurrentSocket
  cases s.socket <;> simp [updateSock]

theorem getSock_attach_lt (d : String) (s : MState) (i : Nat)
    (h : i < s.socks.length) :
    getSock (attachNewSocket d s) i = getSock s i := by
  simp [attachNewSocket, getSock, List.getElem?_append_left h]

theorem sockInv_attachNewSocket (d : String) (s : MState) (h : SockInv s)
    (hnone : s.socket = none) :
    SockInv (attachNewSocket d s) := by
  intro i hi hne
  have hlen : i < s.socks.length + 1 := by simpa [attachNewSocket] using hi
  by_cases hil : i = s.socks.length
  · exact absurd (by simp [attachNewSocket, hil]) hne
  · have hi2 : i < s.socks.length := by omega
    rw [getSock_attach_lt d s i hi2]
    exact h i hi2 (by simp [hnone])

theorem stateInv_ttc_ok (d : String) (fwd : Bool) (s : MState) (h : SockInv s)
    (he : (transitionToConnecting d fwd s).2 = none) :
    StateInv (transitionToConnecting d fwd s).1 := by
  unfold transitionToConnecting at he ⊢
  by_cases hd : validDeviceId d
  · by_cases hf : fwd
    · simp only [hd, hf, Bool.not_true, Bool.false_eq_true, if_false]
      refine ⟨by simp [attachNewSocket], ?_, ?_⟩
      · intro _
        constructor
        · simp [attachNewSocket, destroyCurrentSocket, clearAllTimers]
          cases hso : s.socket <;> simp [updateSock]
        · simp [attachNewSocket, destroyCurrentSocket, clearAllTimers]
          cases hso : s.socket <;> simp [updateSock]
      · exact sockInv_attachNewSocket d _
          (sockInv_destroyCurrent _ (sockInv_clearAllTimers _ h))
          (destroyCurrent_socket_none _)
    · simp [hd, hf] at he
  · simp [hd] at he

theorem ttc_err_char (d : String) (fwd : Bool) (s : MState)
    (he : (transitionToConnecting d fwd s).2.isSome) :
    (transitionToConnecting d fwd s).1 = s ∨
      (transitionToConnecting d fwd s).1 = destroyCurrentSocket (clearAllTimers s) := by
  unfold transitionToConnecting
  by_cases hd : validDeviceId d
  · by_cases hf : fwd
    · exfalso
      unfold transitionToConnecting at he
      simp [hd, hf] at he
    · right
      simp [hd, hf]
  · left
    simp [hd]

end GeoMCP.Device

namespace GeoMCP.Device

theorem sockInv_of_fields (s t : MState) (hsocks : t.socks = s.socks)
    (hsock : t.socket = s.socket) (h : SockInv s) : SockInv t := by
  intro i hi hne
  have := h i (hsocks ▸ hi) (hsock ▸ hne)
  simpa [getSock, hsocks] using this

theorem checkTracker_fields (ans : Option String) (s : MState) :
    (checkTrackerForDevice ans s).state = s.state ∧
    (checkTrackerForDevice ans s).socket = s.socket ∧
    (checkTrackerForDevice ans s).socks = s.socks := by
  unfold checkTrackerForDevice scheduleTrackerReconnect
  split
  · split
    · split <;> simp
    · simp
  · simp

theorem sockInv_all_destroyed (s t : MState) (hsocks : t.socks = s.socks)
    (h : ∀ i, i < s.socks.length → (getSock s i).destroyed = true) : SockInv t := by
  intro i hi _
  have := h i (hsocks ▸ hi)
  simpa [getSock, hsocks] using this

theorem stateInv_registerCb (s : MState) (h : StateInv s) :
    StateInv (registerCbStep s).1 := by
  obtain ⟨h1, h2, h3⟩ := h
  refine ⟨h1, h2, ?_⟩
  exact sockInv_of_fields s _ rfl rfl h3

theorem stateInv_sendCmd (id : String) (w : Option Thrown) (s : MState)
    (h : StateInv s) : StateInv (sendCmdStep id w s).1 := by
  obtain ⟨h1, h2, h3⟩ := h
  unfold sendCmdStep
  cases hso : s.socket with
  | none => exact ⟨by simpa [hso] using h1, h2, h3⟩
  | some sid =>
      simp only
      split
      · exact ⟨h1, h2, h3⟩
      · cases w with
        | none =>
            exact ⟨by simp, h2, sockInv_of_fields s _ rfl (by simp [hso]) h3⟩
        | some t =>
            exact ⟨by simp, h2, sockInv_of_fields s _ rfl (by simp [hso]) h3⟩

theorem stateInv_cmdTimeout (id : String) (s : MState) (h : StateInv s) :
    StateInv (cmdTimeoutStep id s).1 := by
  obtain ⟨h1, h2, h3⟩ := h
  exact ⟨h1, h2, sockInv_of_fields s _ rfl rfl h3⟩

theorem stateInv_trackerEvent (d st : String) (s : MState) (h : StateInv s) :
    StateInv (handleTrackerEventStep d st s).1 := by
  obtain ⟨h1, h2, h3⟩ := h
  unfold handleTrackerEventStep
  split
  · rename_i hcond
    simp only [Bool.and_eq_true, beq_iff_eq] at hcond
    refine ⟨h1, ?_, sockInv_of_fields s _ rfl rfl h3⟩
    intro hst
    rw [show (scheduleTrackerReconnect d s).state = s.state from rfl] at hst
    rw [hst] at hcond
    exact absurd hcond.2 (by simp)
  · exact ⟨h1, h2, h3⟩

theorem stateInv_sockError (sid : Nat) (s : MState) (h : StateInv s) :
    StateInv (sockErrorStep sid s).1 := by
  obtain ⟨h1, h2, h3⟩ := h
  exact ⟨h1, h2, sockInv_updateSock_keep s sid _ (by intro i _; rfl) h3⟩

theorem stateInv_connectTimeout (sid : Nat) (s : MState) (h : StateInv s) :
    StateInv (connectTimeoutStep sid s).1 := by
  obtain ⟨h1, h2, h3⟩ := h
  exact ⟨h1, h2, sockInv_updateSock_keep s sid _ (by intro i _; rfl) h3⟩

theorem stateInv_sockData (p : String → Option Json) (sid : Nat) (chunk : String)
    (s : MState) (h : StateInv s) : StateInv (sockDataStep p sid chunk s).1 := by
  obtain ⟨h1, h2, h3⟩ := h
  refine ⟨h1, h2, ?_⟩
  unfold sockDataStep
  simp only
  exact sockInv_updateSock_keep _ sid _ (fun i hi => hi)
    (sockInv_of_fields s _ rfl rfl h3)

theorem stateInv_shutdown (s : MState) (h : StateInv s) :
    StateInv (shutdownStep s).1 := by
  obtain ⟨_, _, h3⟩ := h
  refine ⟨by simp [shutdownStep], by simp [shutdownStep], ?_⟩
  unfold shutdownStep
  simp only
  exact sockInv_of_fields (destroyCurrentSocket (clearAllTimers s)) _ rfl rfl
    (sockInv_destroyCurrent _ (sockInv_clearAllTimers _ h3))

end GeoMCP.Device

namespace GeoMCP.Device

theorem checkTracker_state (ans : Option String) (s : MState) :
    (checkTrackerForDevice ans s).state = s.state := by
  unfold checkTrackerForDevice scheduleTrackerReconnect
  split
  · split
    · split <;> rfl
    · rfl
  · rfl

theorem checkTracker_socket (ans : Option String) (s : MState) :
    (checkTrackerForDevice ans s).socket = s.socket := by
  unfold checkTrackerForDevice scheduleTrackerReconnect
  split
  · split
    · split <;> rfl
    · rfl
  · rfl

theorem checkTracker_socks (ans : Option String) (s : MState) :
    (checkTrackerForDevice ans s).socks = s.socks := by
  unfold checkTrackerForDevice scheduleTrackerReconnect
  split
  · split
    · split <;> rfl
    · rfl
  · rfl

theorem stateInv_of_safe_state (t : MState)
    (hstate : t.state = ConnState.waitingForDevice ∨ t.state = ConnState.disconnected)
    (hAll : ∀ i, i < t.socks.length → (getSock t i).destroyed = true) :
    StateInv t := by
  refine ⟨?_, ?_, fun i hi _ => hAll i hi⟩
  · intro hc
    rcases hstate with hs | hs <;> rcases hc with hc | hc <;> rw [hs] at hc <;> cases hc
  · intro hc
    rcases hstate with hs | hs <;> rw [hs] at hc <;> cases hc

theorem stateInv_sockConnect (sid : Nat) (s : MState) (h : StateInv s) :
    StateInv (sockConnectStep sid s).1 := by
  obtain ⟨h1, h2, h3⟩ := h
  unfold sockConnectStep
  simp only
  have hkeep : SockInv (updateSock s sid
      fun i => { i with connectTimer := false, connectFired := true }) :=
    sockInv_updateSock_keep s sid _ (fun i hi => hi) h3
  split
  · exact ⟨h1, h2, hkeep⟩
  · rename_i hguard
    have hsock : s.socket = some sid := by
      simpa [updateSock, bne_iff_ne] using hguard
    refine ⟨by simp [updateSock, hsock], by simp, ?_⟩
    exact sockInv_of_fields _ _ rfl rfl hkeep

theorem stateInv_sockClose (sid : Nat) (ans : Option String) (cb : Bool)
    (s : MState) (h : StateInv s) (hlen : sid < s.socks.length) :
    StateInv (sockCloseStep sid ans cb s).1 := by
  obtain ⟨h1, h2, h3⟩ := h
  unfold sockCloseStep
  simp only
  have hkeep0 : SockInv (updateSock s sid
      fun i => { i with connectTimer := false, destroyed := true }) :=
    sockInv_updateSock_keep s sid _ (fun i _ => rfl) h3
  split
  · exact ⟨h1, h2, hkeep0⟩
  · have hkeep1 : SockInv (updateSock (updateSock s sid
        fun i => { i with connectTimer := false, destroyed := true }) sid
        fun i => { i with cleanupCalled := true }) :=
      sockInv_updateSock_keep _ sid _ (fun i hi => hi) hkeep0
    split
    · exact ⟨h1, h2, hkeep1⟩
    · rename_i hguard
      have hsock : s.socket = some sid := by
        simpa [updateSock, bne_iff_ne] using hguard
      have hlen0 : sid < (updateSock s sid
          (fun i => { i with connectTimer := false, destroyed := true })).socks.length := by
        simpa [socks_length_updateSock] using hlen
      have hAll : ∀ i, i < s.socks.length →
          (getSock (updateSock (updateSock s sid
            fun i => { i with connectTimer := false, destroyed := true }) sid
            fun i => { i with cleanupCalled := true }) i).destroyed = true := by
        intro i hi
        by_cases hij : sid = i
        · subst hij
          rw [getSock_updateSock_self _ _ _ hlen0, getSock_updateSock_self _ _ _ hlen]
        · rw [getSock_updateSock_ne _ _ _ _ hij, getSock_updateSock_ne _ _ _ _ hij]
          exact h3 i hi (by simp [hsock, hij])
      split
      · refine ⟨by simp, by simp, ?_⟩
        intro i hi _
        have hi2 : i < s.socks.length := by
          simpa [socks_length_updateSock] using hi
        exact hAll i hi2
      · apply stateInv_of_safe_state
        · rw [checkTracker_state]
          split <;> exact Or.inl rfl
        · intro i hi
          simp only [getSock, checkTracker_socks] at hi ⊢
          revert hi
          split <;> intro hi <;>
            simp only [scheduleRetry] at hi ⊢ <;>
            exact hAll i (by simpa [socks_length_updateSock, getSock] using hi)

end GeoMCP.Device

namespace GeoMCP.Device

theorem stateInv_connectDev (d : String) (fwd cb : Bool) (s : MState)
    (h : StateInv s) : StateInv (connectDevStep d fwd cb s).1 := by
  obtain ⟨h1, h2, h3⟩ := h
  unfold connectDevStep
  simp only
  split
  · exact ⟨h1, fun _ => ⟨rfl, rfl⟩, sockInv_clearAllTimers s h3⟩
  · split
    · rename_i s2 e heq
      have hs2 : SockInv s2 := by
        have hiso := ttc_err_char d fwd
          { clearAllTimers s with targetDeviceId := some d } (by rw [heq]; rfl)
        rw [heq] at hiso
        simp only at hiso
        rcases hiso with hh | hh
        · rw [hh]
          exact sockInv_of_fields s _ rfl rfl h3
        · rw [hh]
          exact sockInv_destroyCurrent _
            (sockInv_of_fields s _ rfl rfl h3)
      exact ⟨by simp, by simp, sockInv_of_fields s2 _ rfl rfl hs2⟩
    · rename_i s2 heq
      have := stateInv_ttc_ok d fwd { clearAllTimers s with targetDeviceId := some d }
        (sockInv_of_fields s _ rfl rfl h3) (by rw [heq])
      rw [heq] at this
      exact this

theorem stateInv_retryFire (fwd : Bool) (ans : Option String) (s : MState)
    (h : StateInv s) : StateInv (retryFireStep fwd ans s).1 := by
  obtain ⟨h1, h2, h3⟩ := h
  unfold retryFireStep
  split
  · exact ⟨h1, h2, h3⟩
  · rename_i d heq
    simp only
    split
    · exact ⟨h1, fun hc => ⟨rfl, (h2 hc).2⟩, sockInv_of_fields s _ rfl rfl h3⟩
    · split
      · exact ⟨h1, fun hc => ⟨rfl, (h2 hc).2⟩, sockInv_of_fields s _ rfl rfl h3⟩
      · split
        · rename_i s2 heq2
          have := stateInv_ttc_ok d fwd { s with retryTimer := none }
            (sockInv_of_fields s _ rfl rfl h3) (by rw [heq2])
          rw [heq2] at this
          exact this
        · rename_i s2 e heq2
          have hs2 : SockInv s2 := by
            have hiso := ttc_err_char d fwd { s with retryTimer := none }
              (by rw [heq2]; rfl)
            rw [heq2] at hiso
            simp only at hiso
            rcases hiso with hh | hh
            · rw [hh]
              exact sockInv_of_fields s _ rfl rfl h3
            · rw [hh]
              exact sockInv_destroyCurrent _ (sockInv_of_fields s _ rfl rfl h3)
          refine ⟨?_, ?_, ?_⟩
          · rw [checkTracker_state]
            simp
          · rw [checkTracker_state]
            simp
          · exact sockInv_of_fields _ _ (checkTracker_socks ans _)
              (checkTracker_socket ans _) (sockInv_of_fields s2 _ rfl rfl hs2)

theorem stateInv_trackerFire (fwd : Bool) (s : MState) (h : StateInv s) :
    StateInv (trackerFireStep fwd s).1 := by
  obtain ⟨h1, h2, h3⟩ := h
  unfold trackerFireStep
  split
  · exact ⟨h1, h2, h3⟩
  · rename_i d heq
    simp only
    split
    · exact ⟨h1, fun hc => ⟨(h2 hc).1, rfl⟩, sockInv_of_fields s _ rfl rfl h3⟩
    · split
      · exact ⟨h1, fun hc => ⟨(h2 hc).1, rfl⟩, sockInv_of_fields s _ rfl rfl h3⟩
      · split
        · rename_i s2 heq2
          have := stateInv_ttc_ok d fwd { s with trackerReconnectTimer := none }
            (sockInv_of_fields s _ rfl rfl h3) (by rw [heq2])
          rw [heq2] at this
          exact this
        · rename_i s2 e heq2
          have hs2 : SockInv s2 := by
            have hiso := ttc_err_char d fwd { s with trackerReconnectTimer := none }
              (by rw [heq2]; rfl)
            rw [heq2] at hiso
            simp only at hiso
            rcases hiso with hh | hh
            · rw [hh]
              exact sockInv_of_fields s _ rfl rfl h3
            · rw [hh]
              exact sockInv_destroyCurrent _ (sockInv_of_fields s _ rfl rfl h3)
          exact ⟨by simp, by simp, sockInv_of_fields s2 _ rfl rfl hs2⟩

theorem stateInv_step (p : String → Option Json) (e : Event) (s : MState)
    (h : StateInv s) (hv : validEvent s e = true) : StateInv (step p e s).1 := by
  cases e with
  | registerCb => exact stateInv_registerCb s h
  | connectDev d fwd cb => exact stateInv_connectDev d fwd cb s h
  | sendCmd id w => exact stateInv_sendCmd id w s h
  | sockConnect sid => exact stateInv_sockConnect sid s h
  | sockData sid chunk => exact stateInv_sockData p sid chunk s h
  | sockError sid => exact stateInv_sockError sid s h
  | sockClose sid ans cb =>
      refine stateInv_sockClose sid ans cb s h ?_
      simpa [validEvent] using hv
  | connectTimeout sid => exact stateInv_connectTimeout sid s h
  | cmdTimeout id => exact stateInv_cmdTimeout id s h
  | retryFire fwd ans => exact stateInv_retryFire fwd ans s h
  | trackerFire fwd => exact stateInv_trackerFire fwd s h
  | trackerEvent d st => exact stateInv_trackerEvent d st s h
  | shutdown => exact stateInv_shutdown s h

/-- Every observable state of the module satisfies the core invariant. -/
theorem reachable_stateInv (p : String → Option Json) (s : MState)
    (h : Reachable p s) : StateInv s := by
  induction h with
  | init =>
      refine ⟨by simp [initState], by simp [initState], ?_⟩
      intro i hi _
      simp [initState] at hi
  | next s e hr hv ih => exact stateInv_step p e s ih hv

end GeoMCP.Device

namespace GeoMCP

/-- A `JSON.parse` oracle that parses nothing, for runs that carry no data. -/
def parse0 : String → Option Json := fun _ => none

/-- The coupling property exactly as the specification states it:
`connecting`/`connected` iff a live (non-null and not destroyed) socket is
held, and `disconnected`/`waiting_for_device` iff the reference is null. -/
def sessionStateCoupling (s : Device.MState) : Prop :=
  ((s.state = .connecting ∨ s.state = .connected) ↔ Device.socketLive s = true)
  ∧ ((s.state = .disconnected ∨ s.state = .waitingForDevice) ↔ s.socket = none)

/-- Run A: a connect whose TCP handshake times out; the connect-timeout
timer destroys the socket, whose close event has not yet been delivered. -/
def c1runA : Device.MState :=
  (Device.step parse0 (.connectTimeout 0)
    (Device.step parse0 (.connectDev "emulator-5554" true false) Device.initState).1).1

theorem c1runA_reachable : Device.Reachable parse0 c1runA :=
  Device.Reachable.next _ _
    (Device.Reachable.next _ _ Device.Reachable.init (by decide)) (by decide)

/-- Run B: while connected to device `a`, the caller asks to connect to a
syntactically invalid device id; `transitionToConnecting` throws before
touching the socket, and `connectToDevice` drops to `waiting_for_device`
with the old live socket still referenced. -/
def c1runB : Device.MState :=
  (Device.step parse0 (.connectDev "b@d" true false)
    (Device.step parse0 (.sockConnect 0)
      (Device.step parse0 (.connectDev "a" true false) Device.initState).1).1).1

theorem c1runB_reachable : Device.Reachable parse0 c1runB :=
  Device.Reachable.next _ _
    (Device.Reachable.next _ _
      (Device.Reachable.next _ _ Device.Reachable.init (by decide)) (by decide))
    (by decide)

/-- C1 counterexample: two reachable observable states violate the claimed
biconditional coupling.  In run A the machine is `connecting` while the
referenced socket is already destroyed (no live Session, yet not in a
no-Session state).  In run B the machine is `waiting_for_device` while a
live, non-destroyed socket is still referenced (a live Session exists in a
claimed no-Session state). -/
theorem c1_session_state_coupling_counterexample :
    (Device.Reachable parse0 c1runA ∧ ¬ sessionStateCoupling c1runA)
    ∧ (Device.Reachable parse0 c1runB ∧ ¬ sessionStateCoupling c1runB) :=
  ⟨⟨c1runA_reachable, by unfold sessionStateCoupling; decide⟩,
   ⟨c1runB_reachable, by unfold sessionStateCoupling; decide⟩⟩

/-- C1 (amended): only one direction of the coupling holds in every
observable state: while `connecting` or `connected` the socket reference
is non-null (equivalently, a null reference implies `disconnected` or
`waiting_for_device`).  The converse directions fail: a referenced socket
may already be destroyed while `connecting`/`connected` (between a
`destroy` call and its `close` callback), and a failed
connect-while-connected with an invalid target id leaves the old live
socket referenced in `waiting_for_device`. -/
theorem c1_session_state_coupling_amended (p : String → Option Json)
    (s : Device.MState) (h : Device.Reachable p s) :
    ((s.state = .connecting ∨ s.state = .connected) → s.socket.isSome)
    ∧ (s.socket = none →
        (s.state = .disconnected ∨ s.state = .waitingForDevice)) := by
  obtain ⟨h1, _, _⟩ := Device.reachable_stateInv p s h
  refine ⟨h1, ?_⟩
  intro hn
  cases hst : s.state with
  | disconnected => exact Or.inl rfl
  | waitingForDevice => exact Or.inr rfl
  | connecting => exact absurd (h1 (Or.inl hst)) (by simp [hn])
  | connected => exact absurd (h1 (Or.inr hst)) (by simp [hn])

/-- The state of run A before the timeout: a freshly connecting machine. -/
def c1runC : Device.MState :=
  (Device.step parse0 (.connectDev "emulator-5554" true false) Device.initState).1

theorem c1runC_reachable : Device.Reachable parse0 c1runC :=
  Device.Reachable.next _ _ Device.Reachable.init (by decide)

/-- Witness for the amended C1 at a concrete connecting state. -/
theorem c1_session_state_coupling_amended_witness : c1runC.socket.isSome = true :=
  (c1_session_state_coupling_amended parse0 c1runC c1runC_reachable).1
    (Or.inl (by decide))

end GeoMCP

namespace GeoMCP

/-- C2: events on a superseded socket are inert.  The close and connect
handlers bail out at their stale-socket guards without touching `state`,
`connectedDeviceId` or the pending map and without emitting any effect
(in particular no promise settlement and no disconnect callback); and
although the data handler itself has no stale guard, every superseded
socket is destroyed, so the runtime never delivers a `data` (or `connect`)
event to it in the first place. -/
theorem c2_stale_socket_guard (p : String → Option Json) (s : Device.MState)
    (h : Device.Reachable p s) (sid : Nat) (hsid : sid < s.socks.length)
    (hstale : s.socket ≠ some sid) :
    (∀ ans cb,
        (Device.step p (.sockClose sid ans cb) s).1.state = s.state
        ∧ (Device.step p (.sockClose sid ans cb) s).1.connectedDeviceId
            = s.connectedDeviceId
        ∧ (Device.step p (.sockClose sid ans cb) s).1.pending = s.pending
        ∧ (Device.step p (.sockClose sid ans cb) s).2 = [])
    ∧ ((Device.step p (.sockConnect sid) s).1.state = s.state
        ∧ (Device.step p (.sockConnect sid) s).1.connectedDeviceId
            = s.connectedDeviceId
        ∧ (Device.step p (.sockConnect sid) s).1.pending = s.pending
        ∧ (Device.step p (.sockConnect sid) s).2 = [])
    ∧ ((Device.getSock s sid).destroyed = true
        ∧ (∀ chunk, Device.validEvent s (.sockData sid chunk) = false)
        ∧ Device.validEvent s (.sockConnect sid) = false) := by
  have hdes : (Device.getSock s sid).destroyed = true :=
    (Device.reachable_stateInv p s h).2.2 sid hsid hstale
  refine ⟨?_, ?_, hdes, ?_, ?_⟩
  · intro ans cb
    rw [show Device.step p (.sockClose sid ans cb) s
        = Device.sockCloseStep sid ans cb s from rfl]
    unfold Device.sockCloseStep
    simp only
    split
    · exact ⟨rfl, rfl, rfl, rfl⟩
    · split
      · exact ⟨rfl, rfl, rfl, rfl⟩
      · rename_i hg
        exact absurd (by simpa [Device.updateSock, bne_iff_ne] using hg) hstale
  · rw [show Device.step p (.sockConnect sid) s
        = Device.sockConnectStep sid s from rfl]
    unfold Device.sockConnectStep
    simp only
    split
    · exact ⟨rfl, rfl, rfl, rfl⟩
    · rename_i hg
      exact absurd (by simpa [Device.updateSock, bne_iff_ne] using hg) hstale
  · intro chunk
    simp [Device.validEvent, hdes]
  · simp [Device.validEvent, hdes]

/-- A reachable state holding a superseded socket: the second connect
supersedes (and destroys) socket 0. -/
def c2run : Device.MState :=
  (Device.step parse0 (.connectDev "b" true false)
    (Device.step parse0 (.connectDev "a" true false) Device.initState).1).1

theorem c2run_reachable : Device.Reachable parse0 c2run :=
  Device.Reachable.next _ _
    (Device.Reachable.next _ _ Device.Reachable.init (by decide)) (by decide)

/-- Witness for C2: in the concrete superseded-socket state, a close event
for the old socket emits nothing and the old socket is destroyed. -/
theorem c2_stale_socket_guard_witness :
    (Device.step parse0 (.sockClose 0 none false) c2run).2 = []
    ∧ (Device.getSock c2run 0).destroyed = true := by
  have hmain := c2_stale_socket_guard parse0 c2run c2run_reachable 0
    (by decide) (by decide)
  exact ⟨(hmain.1 none false).2.2.2, hmain.2.2.1⟩

theorem ttc_ok_fields (d : String) (fwd : Bool) (s : Device.MState)
    (he : (Device.transitionToConnecting d fwd s).2 = none) :
    (Device.transitionToConnecting d fwd s).1.state = .connecting
    ∧ (Device.transitionToConnecting d fwd s).1.retryTimer = none
    ∧ (Device.transitionToConnecting d fwd s).1.trackerReconnectTimer = none := by
  unfold Device.transitionToConnecting at he ⊢
  by_cases hd : Device.validDeviceId d
  · by_cases hf : fwd
    · simp only [hd, hf, Bool.not_true, Bool.false_eq_true, if_false]
      refine ⟨rfl, ?_, ?_⟩ <;>
        cases hso : s.socket <;>
          simp [Device.attachNewSocket, Device.destroyCurrentSocket,
            Device.clearAllTimers, Device.updateSock, hso]
    · simp [hd, hf] at he
  · simp [hd] at he

/-- C3: whenever `connecting` is entered (caller connect, RetryTimer,
TrackerReconnectTimer — all of which funnel through
`transitionToConnecting`, which cancels both timers before any other work
on its mutation path), both reconnect timers are inactive: every
observable `connecting` state has both timers null, and any successful
`transitionToConnecting` ends with `state = "connecting"` and both timers
cancelled, whatever state it started from. -/
theorem c3_connecting_entry_timers_inactive (p : String → Option Json)
    (s : Device.MState) (h : Device.Reachable p s) :
    (s.state = .connecting →
        s.retryTimer = none ∧ s.trackerReconnectTimer = none)
    ∧ (∀ d fwd, (Device.transitionToConnecting d fwd s).2 = none →
        (Device.transitionToConnecting d fwd s).1.state = .connecting
        ∧ (Device.transitionToConnecting d fwd s).1.retryTimer = none
        ∧ (Device.transitionToConnecting d fwd s).1.trackerReconnectTimer = none) :=
  ⟨(Device.reachable_stateInv p s h).2.1, fun d fwd he => ttc_ok_fields d fwd s he⟩

/-- Witness for C3 at the concrete connecting state of `c1runC`. -/
theorem c3_connecting_entry_timers_inactive_witness :
    c1runC.retryTimer = none ∧ c1runC.trackerReconnectTimer = none :=
  (c3_connecting_entry_timers_inactive parse0 c1runC c1runC_reachable).1 (by decide)

end GeoMCP

namespace GeoMCP

theorem splitOnNl_append_nl (l : List Char) (h : l.all (fun c => c != '\n') = true) :
    splitOnNl (l ++ ['\n']) = [l, []] := by
  induction l with
  | nil => rfl
  | cons c rest ih =>
      simp only [List.all_cons, Bool.and_eq_true] at h
      have hc : (c == '\n') = false := by
        simpa using h.1
      simp [splitOnNl, ih h.2, hc]

theorem sockDataStep_single_line (p : String → Option Json) (sid : Nat)
    (line : String) (s : Device.MState)
    (hbuf : (Device.getSock s sid).buffer = "")
    (hnl : line.data.all (fun c => c != '\n') = true) :
    Device.sockDataStep p sid (line ++ "\n") s =
      (Device.updateSock
         { s with pending := (Device.processLine p line s.pending).1 } sid
         (fun i => { i with buffer := "" }),
       (Device.processLine p line s.pending).2) := by
  have hlines : splitLines ((Device.getSock s sid).buffer ++ (line ++ "\n"))
      = [line, ""] := by
    unfold splitLines
    rw [hbuf]
    rw [show (("" : String) ++ (line ++ "\n")).data = line.data ++ ['\n'] by
      simp [String.data_append]]
    rw [splitOnNl_append_nl line.data hnl]
    rfl
  unfold Device.sockDataStep
  simp only [hlines]
  simp [Device.processLines]

/-- C4: round trip of the correlation layer.  After a successful
`sendCommand` while connected (fresh id, successful write) the command is
registered; a complete newline-delimited frame that parses to an object
whose truthy string `id` equals the live command's id resolves exactly
that command with exactly the parsed object, removing the entry together
with its deadline timer; while a frame that fails to parse, or whose id
matches no live command, or carries no usable id, leaves the pending map
unchanged and produces no effect at all. -/
theorem c4_command_roundtrip (p : String → Option Json) (s : Device.MState)
    (sid : Nat) (cid : String) (line : String)
    (hso : s.socket = some sid) (hdes : (Device.getSock s sid).destroyed = false)
    (hst : s.state = .connected) (hfresh : cid ∉ s.pending)
    (hbuf : (Device.getSock s sid).buffer = "")
    (hnl : line.data.all (fun c => c != '\n') = true)
    (hblank : isBlank line = false) :
    (Device.step p (.sendCmd cid none) s).1.pending = s.pending ++ [cid]
    ∧ (Device.step p (.sendCmd cid none) s).2 = []
    ∧ (∀ j, p line = some j → jsonId j = some cid →
        (Device.step p (.sockData sid (line ++ "\n"))
            (Device.step p (.sendCmd cid none) s).1).2
          = [.clearCmdTimer cid, .resolveReq cid j]
        ∧ (Device.step p (.sockData sid (line ++ "\n"))
            (Device.step p (.sendCmd cid none) s).1).1.pending = s.pending)
    ∧ (p line = none →
        (Device.step p (.sockData sid (line ++ "\n"))
            (Device.step p (.sendCmd cid none) s).1).1.pending = s.pending ++ [cid]
        ∧ (Device.step p (.sockData sid (line ++ "\n"))
            (Device.step p (.sendCmd cid none) s).1).2 = [])
    ∧ (∀ j oid, p line = some j → jsonId j = some oid → oid ∉ s.pending ++ [cid] →
        (Device.step p (.sockData sid (line ++ "\n"))
            (Device.step p (.sendCmd cid none) s).1).1.pending = s.pending ++ [cid]
        ∧ (Device.step p (.sockData sid (line ++ "\n"))
            (Device.step p (.sendCmd cid none) s).1).2 = [])
    ∧ (∀ j, p line = some j → jsonId j = none →
        (Device.step p (.sockData sid (line ++ "\n"))
            (Device.step p (.sendCmd cid none) s).1).1.pending = s.pending ++ [cid]
        ∧ (Device.step p (.sockData sid (line ++ "\n"))
            (Device.step p (.sendCmd cid none) s).1).2 = []) := by
  have hsend : Device.step p (.sendCmd cid none) s
      = ({ s with pending := s.pending ++ [cid] }, []) := by
    rw [show Device.step p (.sendCmd cid none) s = Device.sendCmdStep cid none s
      from rfl]
    unfold Device.sendCmdStep
    rw [hso]
    simp [hdes, hst, Device.mapAdd, hfresh]
  have hdata := sockDataStep_single_line p sid line
    { s with pending := s.pending ++ [cid] } hbuf hnl
  have hstep : ∀ t : Device.MState,
      Device.step p (.sockData sid (line ++ "\n")) t
        = Device.sockDataStep p sid (line ++ "\n") t := fun t => rfl
  refine ⟨by rw [hsend], by rw [hsend], ?_, ?_, ?_, ?_⟩
  · intro j hp hid
    have hcont : (s.pending ++ [cid]).contains cid = true := by
      simp [List.contains, List.elem_eq_mem]
    rw [hsend, hstep, hdata]
    simp only [Device.processLine, hblank, hp, hid, Bool.false_eq_true, if_false,
      hcont, if_true]
    refine ⟨trivial, ?_⟩
    show (s.pending ++ [cid]).erase cid = s.pending
    rw [List.erase_append_right _ hfresh, List.erase_cons_head, List.append_nil]
  · intro hp
    rw [hsend, hstep, hdata]
    simp [Device.processLine, hblank, hp, Device.updateSock]
  · intro j oid hp hid hmem
    have hcont : (s.pending ++ [cid]).contains oid = false := by
      simp only [List.contains, List.elem_eq_mem]
      exact decide_eq_false hmem
    have hnmem : ¬(oid ∈ s.pending ∨ oid = cid) := by
      simpa [List.mem_append] using hmem
    rw [hsend, hstep, hdata]
    simp [Device.processLine, hblank, hp, hid, Device.updateSock, hnmem]
  · intro j hp hid
    rw [hsend, hstep, hdata]
    simp [Device.processLine, hblank, hp, hid, Device.updateSock]

/-- A parse oracle recognising one concrete response frame. -/
def parse1 : String → Option Json := fun l =>
  if l = "resp-frame" then
    some (Json.jsObject [("id", Json.jsString "cmd-1"), ("ok", Json.jsBool true)])
  else none

/-- A concrete connected state (handshake completed on socket 0). -/
def c4run : Device.MState :=
  (Device.step parse1 (.sockConnect 0)
    (Device.step parse1 (.connectDev "emulator-5554" true false)
      Device.initState).1).1

theorem c4run_reachable : Device.Reachable parse1 c4run :=
  Device.Reachable.next _ _
    (Device.Reachable.next _ _ Device.Reachable.init (by decide)) (by decide)

/-- Witness for C4: the concrete frame resolves the concrete command with
the parsed object and empties the pending map. -/
theorem c4_command_roundtrip_witness :
    (Device.step parse1 (.sockData 0 ("resp-frame" ++ "\n"))
        (Device.step parse1 (.sendCmd "cmd-1" none) c4run).1).2
      = [.clearCmdTimer "cmd-1",
         .resolveReq "cmd-1"
           (Json.jsObject [("id", Json.jsString "cmd-1"), ("ok", Json.jsBool true)])]
    ∧ (Device.step parse1 (.sockData 0 ("resp-frame" ++ "\n"))
        (Device.step parse1 (.sendCmd "cmd-1" none) c4run).1).1.pending = [] := by
  have h := c4_command_roundtrip parse1 c4run 0 "cmd-1" "resp-frame"
    (by decide) (by decide) (by decide) (by decide) (by decide) (by decide)
    (by decide)
  have h3 := h.2.2.1
    (Json.jsObject [("id", Json.jsString "cmd-1"), ("ok", Json.jsBool true)]) rfl rfl
  exact ⟨h3.1, by rw [h3.2]; decide⟩

end GeoMCP

namespace GeoMCP.Device

@[simp] theorem updateSock_state (s : MState) (sid : Nat) (f : SockInfo → SockInfo) :
    (updateSock s sid f).state = s.state := rfl

@[simp] theorem updateSock_socket (s : MState) (sid : Nat) (f : SockInfo → SockInfo) :
    (updateSock s sid f).socket = s.socket := rfl

@[simp] theorem updateSock_pending (s : MState) (sid : Nat) (f : SockInfo → SockInfo) :
    (updateSock s sid f).pending = s.pending := rfl

@[simp] theorem updateSock_targetDeviceId (s : MState) (sid : Nat)
    (f : SockInfo → SockInfo) :
    (updateSock s sid f).targetDeviceId = s.targetDeviceId := rfl

@[simp] theorem updateSock_retryTimer (s : MState) (sid : Nat)
    (f : SockInfo → SockInfo) :
    (updateSock s sid f).retryTimer = s.retryTimer := rfl

@[simp] theorem updateSock_trackerReconnectTimer (s : MState) (sid : Nat)
    (f : SockInfo → SockInfo) :
    (updateSock s sid f).trackerReconnectTimer = s.trackerReconnectTimer := rfl

@[simp] theorem updateSock_connectedDeviceId (s : MState) (sid : Nat)
    (f : SockInfo → SockInfo) :
    (updateSock s sid f).connectedDeviceId = s.connectedDeviceId := rfl

@[simp] theorem updateSock_cbRegistered (s : MState) (sid : Nat)
    (f : SockInfo → SockInfo) :
    (updateSock s sid f).cbRegistered = s.cbRegistered := rfl

theorem checkTracker_retryTimer (ans : Option String) (s : MState) :
    (checkTrackerForDevice ans s).retryTimer = s.retryTimer := by
  unfold checkTrackerForDevice scheduleTrackerReconnect
  split
  · split
    · split <;> rfl
    · rfl
  · rfl

theorem checkTracker_pending (ans : Option String) (s : MState) :
    (checkTrackerForDevice ans s).pending = s.pending := by
  unfold checkTrackerForDevice scheduleTrackerReconnect
  split
  · split
    · split <;> rfl
    · rfl
  · rfl

theorem mem_rejEffects (l : List String) (e : Err) (id : String) (h : id ∈ l) :
    Effect.rejectReq id e ∈
      l.foldr (fun i acc => Effect.clearCmdTimer i :: Effect.rejectReq i e :: acc)
        [] := by
  induction l with
  | nil => cases h
  | cons a rest ih =>
      rcases List.mem_cons.mp h with h | h
      · subst h
        exact List.Mem.tail _ (List.Mem.head _)
      · exact List.Mem.tail _ (List.Mem.tail _ (ih h))

end GeoMCP.Device

namespace GeoMCP

/-- C5: when the close event of the currently stored socket fires (first
delivery, so the `cleanupCalled` dedup has not run), every live pending
command is rejected with the socket-closed message and the map is emptied;
then, with a target id still recorded, the state becomes
`waiting_for_device` and the short RetryTimer is scheduled (capturing the
socket's device id) exactly when the session had reached `connected`
before closing; with no target recorded, the state becomes `disconnected`
and neither timer is touched. -/
theorem c5_close_handler (p : String → Option Json) (s : Device.MState)
    (sid : Nat) (ans : Option String) (cb : Bool)
    (hso : s.socket = some sid) (hlen : sid < s.socks.length)
    (hcl : (Device.getSock s sid).cleanupCalled = false) :
    (∀ id, id ∈ s.pending →
        Device.Effect.rejectReq id ⟨Device.closedMsg⟩
          ∈ (Device.step p (.sockClose sid ans cb) s).2)
    ∧ (Device.step p (.sockClose sid ans cb) s).1.pending = []
    ∧ (strFalsy s.targetDeviceId = true →
        (Device.step p (.sockClose sid ans cb) s).1.state = .disconnected
        ∧ (Device.step p (.sockClose sid ans cb) s).1.retryTimer = s.retryTimer
        ∧ (Device.step p (.sockClose sid ans cb) s).1.trackerReconnectTimer
            = s.trackerReconnectTimer)
    ∧ (strFalsy s.targetDeviceId = false →
        (Device.step p (.sockClose sid ans cb) s).1.state = .waitingForDevice
        ∧ (Device.step p (.sockClose sid ans cb) s).1.retryTimer
            = (if s.state = .connected then some (Device.getSock s sid).deviceId
               else s.retryTimer)) := by
  have hstep : Device.step p (.sockClose sid ans cb) s
      = Device.sockCloseStep sid ans cb s := rfl
  have hlen1 : sid < (Device.updateSock s sid
      (fun i => { i with connectTimer := false, destroyed := true })).socks.length := by
    rw [Device.socks_length_updateSock]
    exact hlen
  have hc0 : (Device.getSock (Device.updateSock s sid
      (fun i => { i with connectTimer := false, destroyed := true })) sid).cleanupCalled
      = false := by
    rw [Device.getSock_updateSock_self _ _ _ hlen]
    exact hcl
  have hg : (s.socket != some sid) = false := by
    simp [hso]
  have hdev : (Device.getSock (Device.updateSock (Device.updateSock s sid
      (fun i => { i with connectTimer := false, destroyed := true })) sid
      (fun i => { i with cleanupCalled := true })) sid).deviceId
      = (Device.getSock s sid).deviceId := by
    rw [Device.getSock_updateSock_self _ _ _ hlen1,
      Device.getSock_updateSock_self _ _ _ hlen]
  rw [hstep]
  unfold Device.sockCloseStep
  simp only [hc0, Bool.false_eq_true, if_false, hg, hdev, Device.updateSock_state,
    Device.updateSock_socket, Device.updateSock_pending,
    Device.updateSock_targetDeviceId, Device.updateSock_retryTimer,
    Device.updateSock_trackerReconnectTimer, Device.updateSock_connectedDeviceId,
    Device.updateSock_cbRegistered]
  by_cases hT : strFalsy s.targetDeviceId
  · simp only [hT, if_true]
    refine ⟨?_, by trivial, fun _ => ⟨trivial, trivial, trivial⟩,
      fun hF => absurd hF (by simp)⟩
    intro id hid
    exact List.mem_append_left _ (Device.mem_rejEffects _ _ _ hid)
  · have hTF : strFalsy s.targetDeviceId = false := by
      simpa using hT
    simp only [hTF, Bool.false_eq_true, if_false]
    by_cases hW : s.state = Device.ConnState.connected
    · simp only [hW, beq_self_eq_true, if_true]
      refine ⟨?_, ?_, fun hTT => absurd hTT (by simp), fun _ => ⟨?_, ?_⟩⟩
      · intro id hid
        exact List.mem_append_left _ (Device.mem_rejEffects _ _ _ hid)
      · rw [Device.checkTracker_pending]
        simp [Device.scheduleRetry]
      · rw [Device.checkTracker_state]
        simp [Device.scheduleRetry]
      · rw [Device.checkTracker_retryTimer]
        rw [show ∀ (d : String) (t : Device.MState),
            (Device.scheduleRetry d t).retryTimer = some d from fun d t => rfl]
        exact congrArg some hdev
    · have hWb : (s.state == Device.ConnState.connected) = false :=
        beq_eq_false_iff_ne.mpr hW
      simp only [hWb, Bool.false_eq_true, if_false]
      refine ⟨?_, ?_, fun hTT => absurd hTT (by simp), fun _ => ⟨?_, ?_⟩⟩
      · intro id hid
        exact List.mem_append_left _ (Device.mem_rejEffects _ _ _ hid)
      · simp [Device.checkTracker_pending]
      · simp [Device.checkTracker_state]
      · rw [Device.checkTracker_retryTimer, if_neg hW]

end GeoMCP

namespace GeoMCP

/-- A connected state with one in-flight command (id `x1`) and target `a`. -/
def c5run : Device.MState :=
  (Device.step parse0 (.sendCmd "x1" none)
    (Device.step parse0 (.sockConnect 0)
      (Device.step parse0 (.connectDev "a" true false) Device.initState).1).1).1

theorem c5run_reachable : Device.Reachable parse0 c5run :=
  Device.Reachable.next _ _
    (Device.Reachable.next _ _
      (Device.Reachable.next _ _ Device.Reachable.init (by decide)) (by decide))
    (by decide)

/-- Witness for C5 at the concrete connected state: the close event rejects
the in-flight command, empties the map, moves to `waiting_for_device` and
schedules the retry for the session's device. -/
theorem c5_close_handler_witness :
    Device.Effect.rejectReq "x1" ⟨Device.closedMsg⟩
      ∈ (Device.step parse0 (.sockClose 0 none false) c5run).2
    ∧ (Device.step parse0 (.sockClose 0 none false) c5run).1.pending = []
    ∧ (Device.step parse0 (.sockClose 0 none false) c5run).1.state
        = Device.ConnState.waitingForDevice
    ∧ (Device.step parse0 (.sockClose 0 none false) c5run).1.retryTimer = some "a" := by
  have h := c5_close_handler parse0 c5run 0 none false (by decide) (by decide)
    (by decide)
  refine ⟨h.1 "x1" (by decide), h.2.1, ?_, ?_⟩
  · exact (h.2.2.2 (by decide)).1
  · rw [(h.2.2.2 (by decide)).2]
    decide

/-- C6 counterexample: a reachable state that is `connected` to `a` with a
live socket but has a pending TrackerReconnectTimer (scheduled for the
recorded target `b@d` while the machine was waiting); the idempotent
`connect("a")` then cancels that pending timer — contradicting the claim
that none of the otherwise-steps (cancelling pending timers) run on the
idempotent path — even though it does return success without a new
session. -/
def c6run : Device.MState :=
  (Device.step parse0 (.sockConnect 0)
    (Device.step parse0 (.trackerEvent "b@d" "device")
      (Device.step parse0 (.connectDev "b@d" true false)
        (Device.step parse0 (.connectDev "a" true false)
          Device.initState).1).1).1).1

theorem c6run_reachable : Device.Reachable parse0 c6run :=
  Device.Reachable.next _ _
    (Device.Reachable.next _ _
      (Device.Reachable.next _ _
        (Device.Reachable.next _ _ Device.Reachable.init (by decide)) (by decide))
      (by decide))
    (by decide)

/-- C6 counterexample (see `c6run`): the idempotent connect cancels a
pending tracker-reconnect timer. -/
theorem c6_connect_idempotent_counterexample :
    Device.Reachable parse0 c6run
    ∧ c6run.state = Device.ConnState.connected
    ∧ c6run.connectedDeviceId = some "a"
    ∧ Device.socketLive c6run = true
    ∧ c6run.trackerReconnectTimer = some "b@d"
    ∧ (Device.step parse0 (.connectDev "a" true false) c6run).1.trackerReconnectTimer
        = none
    ∧ (Device.step parse0 (.connectDev "a" true false) c6run).2
        = [Device.Effect.connectResolve] :=
  ⟨c6run_reachable, by decide, by decide, by decide, by decide, by decide, rfl⟩

/-- C6 (amended): calling `connect(id)` while connected to `id` with a
live socket returns success immediately: no new session is created, no
pending command is touched, the target is not re-recorded and no session
setup runs — the resulting state is exactly the old one except that
`connectToDevice` unconditionally cancels both reconnect timers before
the idempotency check, so a pending timer is cancelled even on this
path. -/
theorem c6_connect_idempotent_amended (p : String → Option Json)
    (s : Device.MState) (d : String) (fwd cb : Bool)
    (hst : s.state = Device.ConnState.connected)
    (hid : s.connectedDeviceId = some d)
    (hlive : Device.socketLive s = true) :
    Device.step p (.connectDev d fwd cb) s
      = (Device.clearAllTimers s, [Device.Effect.connectResolve]) := by
  rw [show Device.step p (.connectDev d fwd cb) s
      = Device.connectDevStep d fwd cb s from rfl]
  unfold Device.connectDevStep
  have h1 : ((Device.clearAllTimers s).state == Device.ConnState.connected) = true := by
    simp [Device.clearAllTimers, hst]
  have h2 : ((Device.clearAllTimers s).connectedDeviceId == some d) = true := by
    simp [Device.clearAllTimers, hid]
  have h3 : Device.socketLive (Device.clearAllTimers s) = true := by
    rw [show Device.socketLive (Device.clearAllTimers s)
        = Device.socketLive s from rfl]
    exact hlive
  simp only [h1, h2, h3, Bool.and_self, if_true]

/-- Witness for the amended C6 at a concrete connected state. -/
theorem c6_connect_idempotent_amended_witness :
    Device.step parse0 (.connectDev "a" true false) c5run
      = (Device.clearAllTimers c5run, [Device.Effect.connectResolve]) :=
  c6_connect_idempotent_amended parse0 c5run "a" true false
    (by decide) (by decide) (by decide)

end GeoMCP

namespace GeoMCP.Device

/-- Discriminator for the disconnect-callback effect. -/
def Effect.isCb : Effect → Bool
  | .disconnectCb => true
  | _ => false

/-- Number of disconnect-callback invocations in an effect list. -/
def countCb (l : List Effect) : Nat := l.countP Effect.isCb

theorem countCb_rejEffects (l : List String) (e : Err) :
    countCb (l.foldr
      (fun i acc => Effect.clearCmdTimer i :: Effect.rejectReq i e :: acc) []) = 0 := by
  induction l with
  | nil => rfl
  | cons a rest ih =>
      unfold countCb at ih ⊢
      simp [List.countP_cons, Effect.isCb, ih]

theorem countCb_notify_false (s : MState) :
    countCb (notifyDisconnect s false) = (if s.cbRegistered then 1 else 0) := by
  unfold notifyDisconnect countCb
  split <;> simp [Effect.isCb, List.countP_cons]

theorem countCb_notify_true (s : MState) :
    countCb (notifyDisconnect s true) = 0 := by
  unfold notifyDisconnect countCb
  split <;> simp [Effect.isCb, List.countP_cons]

end GeoMCP.Device

namespace GeoMCP

/-- A connected state (to `a`, socket 0) with the callback registered. -/
def c7run : Device.MState :=
  (Device.step parse0 (.sockConnect 0)
    (Device.step parse0 (.connectDev "a" true false)
      (Device.step parse0 .registerCb Device.initState).1).1).1

theorem c7run_reachable : Device.Reachable parse0 c7run :=
  Device.Reachable.next _ _
    (Device.Reachable.next _ _
      (Device.Reachable.next _ _ Device.Reachable.init (by decide)) (by decide))
    (by decide)

/-- C7 counterexample: a caller-initiated `connect("b")` while connected
to `a` with a live session does invoke the registered disconnect callback
(from inside `connectToDevice`, before the session switch) — the claim
says it is never invoked on a caller-initiated reconnect to a different
target. -/
theorem c7_disconnect_callback_counterexample :
    Device.Reachable parse0 c7run
    ∧ c7run.state = Device.ConnState.connected
    ∧ c7run.connectedDeviceId = some "a"
    ∧ ("b" : String) ≠ "a"
    ∧ (Device.step parse0 (.connectDev "b" true false) c7run).2
        = [Device.Effect.disconnectCb] :=
  ⟨c7run_reachable, by decide, by decide, by decide, rfl⟩

/-- C7 (amended): the registered callback is invoked exactly once per
close of the current socket that had reached `connected` (and not at all
when the closing session never connected); a throwing callback is caught:
the post-state is the same as with a non-throwing callback, the exception
never escapes the handler, and a log entry is emitted instead; and
additionally `connectToDevice` itself invokes the callback exactly once
whenever it proceeds past the idempotency check while `connected`
(switching to a different target or a dead same-target socket). -/
theorem c7_disconnect_callback_amended (p : String → Option Json)
    (s : Device.MState) (sid : Nat) (ans : Option String)
    (hso : s.socket = some sid) (hlen : sid < s.socks.length)
    (hcl : (Device.getSock s sid).cleanupCalled = false)
    (hreg : s.cbRegistered = true) :
    (Device.countCb (Device.step p (.sockClose sid ans false) s).2
        = (if s.state = Device.ConnState.connected then 1 else 0))
    ∧ (∀ cb, (Device.step p (.sockClose sid ans cb) s).1
        = (Device.step p (.sockClose sid ans false) s).1)
    ∧ Device.countCb (Device.step p (.sockClose sid ans true) s).2 = 0
    ∧ (s.state = Device.ConnState.connected →
        Device.Effect.logErr "Disconnect callback error"
          ∈ (Device.step p (.sockClose sid ans true) s).2)
    ∧ (∀ d fwd, s.state = Device.ConnState.connected →
        ((s.connectedDeviceId == some d) && Device.socketLive s) = false →
        Device.countCb (Device.step p (.connectDev d fwd false) s).2 = 1) := by
  have hc0 : (Device.getSock (Device.updateSock s sid
      (fun i => { i with connectTimer := false, destroyed := true })) sid).cleanupCalled
      = false := by
    rw [Device.getSock_updateSock_self _ _ _ hlen]
    exact hcl
  have hg : (s.socket != some sid) = false := by
    simp [hso]
  have hclose : ∀ cb : Bool, Device.step p (.sockClose sid ans cb) s
      = Device.sockCloseStep sid ans cb s := fun _ => rfl
  refine ⟨?_, ?_, ?_, ?_, ?_⟩
  · rw [hclose]
    unfold Device.sockCloseStep
    simp only [hc0, Bool.false_eq_true, if_false, hg, Device.updateSock_state,
      Device.updateSock_socket, Device.updateSock_pending,
      Device.updateSock_targetDeviceId, Device.updateSock_cbRegistered]
    by_cases hW : s.state = Device.ConnState.connected
    · simp only [hW, beq_self_eq_true, if_true]
      split <;>
        · unfold Device.countCb
          simp only [List.countP_append]
          have h0 := Device.countCb_rejEffects s.pending ⟨Device.closedMsg⟩
          unfold Device.countCb at h0
          rw [h0]
          simp [Device.notifyDisconnect, hreg, Device.Effect.isCb,
            List.countP_cons]
    · have hWb : (s.state == Device.ConnState.connected) = false :=
        beq_eq_false_iff_ne.mpr hW
      simp only [hWb, Bool.false_eq_true, if_false]
      split <;>
        · unfold Device.countCb
          simp only [List.countP_append]
          have h0 := Device.countCb_rejEffects s.pending ⟨Device.closedMsg⟩
          unfold Device.countCb at h0
          rw [h0]
          simp [hW]
  · intro cb
    rw [hclose, hclose]
    unfold Device.sockCloseStep
    simp only [hc0, Bool.false_eq_true, if_false, hg, Device.updateSock_state,
      Device.updateSock_socket, Device.updateSock_pending,
      Device.updateSock_targetDeviceId, Device.updateSock_cbRegistered]
    split <;> rfl
  · rw [hclose]
    unfold Device.sockCloseStep
    simp only [hc0, Bool.false_eq_true, if_false, hg, Device.updateSock_state,
      Device.updateSock_socket, Device.updateSock_pending,
      Device.updateSock_targetDeviceId, Device.updateSock_cbRegistered]
    split <;>
      · unfold Device.countCb
        simp only [List.countP_append]
        have h0 := Device.countCb_rejEffects s.pending ⟨Device.closedMsg⟩
        unfold Device.countCb at h0
        rw [h0]
        split <;> simp [Device.notifyDisconnect, hreg, Device.Effect.isCb,
          List.countP_cons]
  · intro hW
    rw [hclose]
    unfold Device.sockCloseStep
    simp only [hc0, Bool.false_eq_true, if_false, hg, Device.updateSock_state,
      Device.updateSock_socket, Device.updateSock_pending,
      Device.updateSock_targetDeviceId, Device.updateSock_cbRegistered]
    simp only [hW, beq_self_eq_true, if_true]
    split <;>
      · refine List.mem_append_right _ ?_
        simp [Device.notifyDisconnect, hreg]
  · intro d fwd hW hni
    rw [show Device.step p (.connectDev d fwd false) s
        = Device.connectDevStep d fwd false s from rfl]
    unfold Device.connectDevStep
    have hcond : ((Device.clearAllTimers s).state == Device.ConnState.connected
        && ((Device.clearAllTimers s).connectedDeviceId == some d)
        && Device.socketLive (Device.clearAllTimers s)) = false := by
      rw [show Device.socketLive (Device.clearAllTimers s)
          = Device.socketLive s from rfl]
      rw [show (Device.clearAllTimers s).state = s.state from rfl,
        show (Device.clearAllTimers s).connectedDeviceId
          = s.connectedDeviceId from rfl]
      rw [hW]
      simpa [Bool.and_assoc] using hni
    simp only [hcond, Bool.false_eq_true, if_false]
    have hWc : ((Device.clearAllTimers s).state == Device.ConnState.connected)
        = true := by
      rw [show (Device.clearAllTimers s).state = s.state from rfl, hW]
      rfl
    simp only [hWc, if_true]
    split <;>
      · unfold Device.countCb
        simp [List.countP_append, Device.notifyDisconnect,
          Device.clearAllTimers, hreg, Device.Effect.isCb, List.countP_cons]

end GeoMCP

namespace GeoMCP

/-- Witness for the amended C7: at the concrete connected state, the close
of the current socket invokes the callback exactly once, and so does a
caller-initiated connect to the different target `b`. -/
theorem c7_disconnect_callback_amended_witness :
    Device.countCb (Device.step parse0 (.sockClose 0 none false) c7run).2 = 1
    ∧ Device.countCb (Device.step parse0 (.connectDev "b" true false) c7run).2
        = 1 := by
  have h := c7_disconnect_callback_amended parse0 c7run 0 none (by decide)
    (by decide) (by decide) (by decide)
  refine ⟨?_, ?_⟩
  · rw [h.1]
    decide
  · exact h.2.2.2.2 "b" true (by decide) (by decide)

end GeoMCP

namespace GeoMCP

/-- C10: while connected, a `sock.write` that throws settles the command
immediately: the deadline timer is cancelled and the entry deleted (the
module state is exactly as before the call) and the promise is rejected
with the thrown error, wrapped into an `Error` when it is not one. -/
theorem c10_send_write_failure_cleanup (p : String → Option Json)
    (s : Device.MState) (sid : Nat) (cid : String) (t : Thrown)
    (hso : s.socket = some sid) (hdes : (Device.getSock s sid).destroyed = false)
    (hst : s.state = Device.ConnState.connected) (hfresh : cid ∉ s.pending) :
    Device.step p (.sendCmd cid (some t)) s
      = (s, [Device.Effect.clearCmdTimer cid,
             Device.Effect.rejectReq cid (wrapThrown t)])
    ∧ cid ∉ (Device.step p (.sendCmd cid (some t)) s).1.pending := by
  have hguard : ((Device.getSock s sid).destroyed
      || s.state != Device.ConnState.connected) = false := by
    simp [hdes, hst]
  have hcont : (s.pending.contains cid) = false := by
    simp only [List.contains, List.elem_eq_mem]
    exact decide_eq_false hfresh
  have hmain : Device.step p (.sendCmd cid (some t)) s
      = (s, [Device.Effect.clearCmdTimer cid,
             Device.Effect.rejectReq cid (wrapThrown t)]) := by
    rw [show Device.step p (.sendCmd cid (some t)) s
        = Device.sendCmdStep cid (some t) s from rfl]
    unfold Device.sendCmdStep
    rw [hso]
    simp only [hguard, Bool.false_eq_true, if_false, Device.mapAdd, hcont]
    rw [show (s.pending ++ [cid]).erase cid = s.pending by
      rw [List.erase_append_right _ hfresh, List.erase_cons_head,
        List.append_nil]]
    rw [← hso]
  exact ⟨hmain, by rw [hmain]; exact hfresh⟩

/-- Witness for C10: at the concrete connected state, a throwing write for
fresh id `x2` leaves the state untouched and rejects with the wrapped
error. -/
theorem c10_send_write_failure_cleanup_witness :
    Device.step parse0 (.sendCmd "x2" (some (Thrown.notError "boom"))) c5run
      = (c5run, [Device.Effect.clearCmdTimer "x2",
                 Device.Effect.rejectReq "x2" ⟨"boom"⟩]) :=
  (c10_send_write_failure_cleanup parse0 c5run 0 "x2" (Thrown.notError "boom")
    (by decide) (by decide) (by decide) (by decide)).1

end GeoMCP

namespace GeoMCP.Tracker

theorem getTSock_updateTSock_self (s : TState) (sid : Nat) (f : TSock → TSock)
    (h : sid < s.socks.length) :
    getTSock (updateTSock s sid f) sid = f (getTSock s sid) := by
  simp [getTSock, updateTSock, List.getElem?_set_self h]

@[simp] theorem updateTSock_trackerSocket (s : TState) (sid : Nat)
    (f : TSock → TSock) :
    (updateTSock s sid f).trackerSocket = s.trackerSocket := rfl

@[simp] theorem updateTSock_knownDevices (s : TState) (sid : Nat)
    (f : TSock → TSock) :
    (updateTSock s sid f).knownDevices = s.knownDevices := rfl

@[simp] theorem updateTSock_retryTimer (s : TState) (sid : Nat)
    (f : TSock → TSock) :
    (updateTSock s sid f).retryTimer = s.retryTimer := rfl

@[simp] theorem updateTSock_active (s : TState) (sid : Nat)
    (f : TSock → TSock) :
    (updateTSock s sid f).active = s.active := rfl

end GeoMCP.Tracker

namespace GeoMCP

/-- C8 counterexample state: the tracker is started, receives `OKAY` plus
one snapshot listing device `a`, and then its connection fails. -/
def c8pre : Tracker.TState :=
  (Tracker.tdataStep (fun _ => false) 0 ("OKAY" ++ "0009" ++ "a\tdevice\n")
    (Tracker.startTrackingStep Tracker.initTState)).1

/-- C8 counterexample: at the failure (`handleGone`) the known-device
mapping is NOT cleared — `getKnownDeviceState` still answers from the dead
connection's last snapshot; only the 5-second reconnect is scheduled, and
the mapping is cleared later, when the retry fires and `connectToAdb`
starts over. -/
theorem c8_failure_clears_mapping_counterexample :
    c8pre.trackerSocket = some 0
    ∧ c8pre.knownDevices = [("a", "device")]
    ∧ c8pre.active = true
    ∧ (Tracker.goneStep 0 c8pre).1.knownDevices = [("a", "device")]
    ∧ (Tracker.goneStep 0 c8pre).1.retryTimer = true
    ∧ (Tracker.goneStep 0 c8pre).1.trackerSocket = none
    ∧ Tracker.getKnownDeviceState (Tracker.goneStep 0 c8pre).1 "a"
        = some "device" := by
  refine ⟨by decide, by decide, by decide, by decide, by decide, by decide,
    by decide⟩

/-- C8 (amended): a connection failure after the initial connect attempt
reduces to drop-the-socket-and-schedule-one-retry, with no error escaping
(the handler is total and emits nothing): the socket reference is nulled,
exactly one reconnect is scheduled (a repeated error/close for the same
socket is a no-op via `cleanupCalled`), and the known-device mapping is
cleared when the 5-second retry fires (at the start of `connectToAdb`),
not at failure time — until then the last snapshot remains queryable. -/
theorem c8_failure_retry_amended (s : Tracker.TState) (sid : Nat)
    (hcur : s.trackerSocket = some sid) (hlen : sid < s.socks.length)
    (hcl : (Tracker.getTSock s sid).cleanupCalled = false)
    (hact : s.active = true) (hrt : s.retryTimer = false) :
    ((Tracker.goneStep sid s).1.trackerSocket = none
      ∧ (Tracker.goneStep sid s).1.retryTimer = true
      ∧ (Tracker.goneStep sid s).1.knownDevices = s.knownDevices
      ∧ (Tracker.goneStep sid s).2 = [])
    ∧ Tracker.goneStep sid (Tracker.goneStep sid s).1
        = ((Tracker.goneStep sid s).1, [])
    ∧ (Tracker.retryFireStep (Tracker.goneStep sid s).1).1.knownDevices = []
    ∧ (Tracker.retryFireStep (Tracker.goneStep sid s).1).1.retryTimer = false
    ∧ Tracker.RETRY_DELAY_MS = 5000 := by
  have hgone : Tracker.goneStep sid s
      = (Tracker.scheduleRetry
          { Tracker.updateTSock s sid (fun i => { i with cleanupCalled := true })
            with trackerSocket := none }, []) := by
    unfold Tracker.goneStep
    simp only [hcl, Bool.false_eq_true, if_false]
    have hg : ((Tracker.updateTSock s sid
        (fun i => { i with cleanupCalled := true })).trackerSocket != some sid)
        = false := by
      simp [hcur]
    simp only [hg, Bool.false_eq_true, if_false]
  have hsched : Tracker.scheduleRetry
      { Tracker.updateTSock s sid (fun i => { i with cleanupCalled := true })
        with trackerSocket := none }
      = { Tracker.updateTSock s sid (fun i => { i with cleanupCalled := true })
          with trackerSocket := none, retryTimer := true } := by
    unfold Tracker.scheduleRetry
    simp [hact, hrt]
  rw [hgone, hsched]
  refine ⟨⟨rfl, rfl, rfl, rfl⟩, ?_, ?_, ?_, rfl⟩
  · unfold Tracker.goneStep
    have hcl2 : (Tracker.getTSock
        { Tracker.updateTSock s sid (fun i => { i with cleanupCalled := true })
          with trackerSocket := none, retryTimer := true } sid).cleanupCalled
        = true := by
      rw [show Tracker.getTSock
          { Tracker.updateTSock s sid (fun i => { i with cleanupCalled := true })
            with trackerSocket := none, retryTimer := true } sid
          = Tracker.getTSock (Tracker.updateTSock s sid
            (fun i => { i with cleanupCalled := true })) sid from rfl]
      rw [Tracker.getTSock_updateTSock_self _ _ _ hlen]
    simp only [hcl2, if_true]
  · unfold Tracker.retryFireStep Tracker.connectToAdb
    simp [hact]
  · unfold Tracker.retryFireStep Tracker.connectToAdb
    simp [hact]

/-- Witness for the amended C8 at the concrete failed-tracker state. -/
theorem c8_failure_retry_amended_witness :
    (Tracker.goneStep 0 c8pre).1.retryTimer = true
    ∧ (Tracker.retryFireStep (Tracker.goneStep 0 c8pre).1).1.knownDevices
        = [] := by
  have h := c8_failure_retry_amended c8pre 0 (by decide) (by decide) (by decide)
    (by decide) (by decide)
  exact ⟨h.1.2.1, h.2.2.1⟩

end GeoMCP

namespace GeoMCP.Tracker

theorem lookupKV_mem (m : List (String × String)) (k v : String)
    (h : lookupKV m k = some v) : (k, v) ∈ m := by
  induction m with
  | nil => cases h
  | cons a rest ih =>
      obtain ⟨k2, v2⟩ := a
      unfold lookupKV at h
      by_cases hk : k2 = k
      · subst hk
        simp only [beq_self_eq_true, if_true] at h
        cases h
        exact List.Mem.head _
      · have hkb : (k2 == k) = false := beq_eq_false_iff_ne.mpr hk
        rw [hkb] at h
        simp only [Bool.false_eq_true, if_false] at h
        exact List.Mem.tail _ (ih h)

theorem lookupKV_of_mem_nodup (m : List (String × String)) (k v : String)
    (hnd : (m.map Prod.fst).Nodup) (h : (k, v) ∈ m) :
    lookupKV m k = some v := by
  induction m with
  | nil => cases h
  | cons a rest ih =>
      obtain ⟨k2, v2⟩ := a
      rcases List.mem_cons.mp h with h | h
      · obtain ⟨h1, h2⟩ := Prod.mk.injEq .. ▸ h
        subst h1
        subst h2
        unfold lookupKV
        simp
      · have hnd2 : (∀ x, (k2, x) ∉ rest) ∧ (rest.map Prod.fst).Nodup := by
          simpa using hnd
        have hk : k2 ≠ k := by
          intro he
          subst he
          exact hnd2.1 v h
        unfold lookupKV
        rw [beq_eq_false_iff_ne.mpr hk]
        simp only [Bool.false_eq_true, if_false]
        exact ih hnd2.2 h

theorem keys_mapSet (m : List (String × String)) (k v : String) :
    (mapSet m k v).map Prod.fst
      = (if k ∈ m.map Prod.fst then m.map Prod.fst
         else m.map Prod.fst ++ [k]) := by
  induction m with
  | nil => simp [mapSet]
  | cons a rest ih =>
      obtain ⟨k2, v2⟩ := a
      by_cases hk : k2 = k
      · subst hk
        simp [mapSet]
      · have hkb : (k2 == k) = false := beq_eq_false_iff_ne.mpr hk
        simp only [mapSet, hkb, Bool.false_eq_true, if_false, List.map_cons, ih]
        by_cases hmem : k ∈ rest.map Prod.fst
        · simp [hmem, Ne.symm hk]
        · simp [hmem, Ne.symm hk]

theorem nodup_keys_mapSet (m : List (String × String)) (k v : String)
    (h : (m.map Prod.fst).Nodup) : ((mapSet m k v).map Prod.fst).Nodup := by
  rw [keys_mapSet]
  split
  · exact h
  · rename_i hk
    simp [List.nodup_append, h, hk]

theorem nodup_keys_snapshotLine (m : List (String × String)) (l : List Char)
    (h : (m.map Prod.fst).Nodup) :
    ((snapshotLine m l).map Prod.fst).Nodup := by
  unfold snapshotLine
  dsimp only
  split
  · exact h
  · split
    · exact h
    · split
      · exact h
      · exact nodup_keys_mapSet _ _ _ h

theorem nodup_keys_parseSnapshot (payload : String) :
    ((parseSnapshot payload).map Prod.fst).Nodup := by
  unfold parseSnapshot
  have hgen : ∀ (ls : List (List Char)) (acc : List (String × String)),
      (acc.map Prod.fst).Nodup →
      ((ls.foldl snapshotLine acc).map Prod.fst).Nodup := by
    intro ls
    induction ls with
    | nil => intro acc h; exact h
    | cons l rest ih =>
        intro acc hacc
        simp only [List.foldl_cons]
        exact ih _ (nodup_keys_snapshotLine acc l hacc)
  exact hgen _ [] (by simp)

end GeoMCP.Tracker

namespace GeoMCP.Tracker

theorem mem_diffEvents_change (old upd : List (String × String)) (id st : String)
    (hlook : lookupKV upd id = some st)
    (hdiff : lookupKV old id ≠ some st) :
    (⟨id, st, lookupKV old id⟩ : DeviceEvent) ∈ diffEvents old upd := by
  unfold diffEvents
  refine List.mem_append_left _ ?_
  refine List.mem_filterMap.mpr ⟨(id, st), lookupKV_mem upd id st hlook, ?_⟩
  have hb : (lookupKV old id == some st) = false := beq_eq_false_iff_ne.mpr hdiff
  simp [hb]

theorem mem_diffEvents_offline (old upd : List (String × String))
    (id pst : String)
    (hlook : lookupKV old id = some pst)
    (hupd : lookupKV upd id = none) :
    (⟨id, "offline", some pst⟩ : DeviceEvent) ∈ diffEvents old upd := by
  unfold diffEvents
  refine List.mem_append_right _ ?_
  refine List.mem_filterMap.mpr ⟨(id, pst), lookupKV_mem old id pst hlook, ?_⟩
  simp [hupd]

theorem diffEvents_sound (old upd : List (String × String)) (ev : DeviceEvent)
    (hndOld : (old.map Prod.fst).Nodup) (hndUpd : (upd.map Prod.fst).Nodup)
    (h : ev ∈ diffEvents old upd) :
    (lookupKV upd ev.deviceId = some ev.devState
      ∧ ev.previous = lookupKV old ev.deviceId
      ∧ ev.previous ≠ some ev.devState)
    ∨ (ev.devState = "offline"
      ∧ lookupKV upd ev.deviceId = none
      ∧ ∃ pst, ev.previous = some pst ∧ lookupKV old ev.deviceId = some pst) := by
  unfold diffEvents at h
  rcases List.mem_append.mp h with h | h
  · left
    obtain ⟨⟨a, b⟩, hmem, hf⟩ := List.mem_filterMap.mp h
    by_cases hc : (lookupKV old a == some b) = true
    · simp [hc] at hf
    · have hcb : (lookupKV old a == some b) = false := by
        simpa using hc
      simp only [hcb, Bool.false_eq_true, if_false] at hf
      cases hf
      have hl : lookupKV upd a = some b := lookupKV_of_mem_nodup upd a b hndUpd hmem
      refine ⟨hl, rfl, ?_⟩
      simpa using beq_eq_false_iff_ne.mp hcb
  · right
    obtain ⟨⟨a, b⟩, hmem, hf⟩ := List.mem_filterMap.mp h
    by_cases hc : (lookupKV upd a).isSome
    · simp [hc] at hf
    · have hcb : lookupKV upd a = none := Option.not_isSome_iff_eq_none.mp hc
      simp only [hcb, Option.isSome_none, Bool.false_eq_true, if_false] at hf
      cases hf
      exact ⟨rfl, hcb, b, rfl, lookupKV_of_mem_nodup old a b hndOld hmem⟩

end GeoMCP.Tracker

namespace GeoMCP

/-- C9: for every payload processed with a listener registered, the stored
mapping is replaced by the freshly parsed snapshot (computed from the
payload alone), an event `(id, newState, previousState)` is emitted for
every id whose state differs from — or is absent in — the pre-update
mapping, an `offline` event with the previous state is emitted for every
id present only in the pre-update mapping, and every emitted event is of
one of these two kinds with its `previous` field always read from the
pre-update mapping. -/
theorem c9_device_list_diff (lt : Tracker.DeviceEvent → Bool) (payload : String)
    (s : Tracker.TState) (hl : s.listener = true)
    (hnd : (s.knownDevices.map Prod.fst).Nodup) :
    (Tracker.processDeviceList lt payload s).1.knownDevices
        = Tracker.parseSnapshot payload
    ∧ (∀ id st, Tracker.lookupKV (Tracker.parseSnapshot payload) id = some st →
        Tracker.lookupKV s.knownDevices id ≠ some st →
        Tracker.emitEvent lt ⟨id, st, Tracker.lookupKV s.knownDevices id⟩
          ∈ (Tracker.processDeviceList lt payload s).2)
    ∧ (∀ id pst, Tracker.lookupKV s.knownDevices id = some pst →
        Tracker.lookupKV (Tracker.parseSnapshot payload) id = none →
        Tracker.emitEvent lt ⟨id, "offline", some pst⟩
          ∈ (Tracker.processDeviceList lt payload s).2)
    ∧ (∀ eff ∈ (Tracker.processDeviceList lt payload s).2,
        ∃ ev : Tracker.DeviceEvent,
        eff = Tracker.emitEvent lt ev
        ∧ ((Tracker.lookupKV (Tracker.parseSnapshot payload) ev.deviceId
              = some ev.devState
            ∧ ev.previous = Tracker.lookupKV s.knownDevices ev.deviceId
            ∧ ev.previous ≠ some ev.devState)
          ∨ (ev.devState = "offline"
            ∧ Tracker.lookupKV (Tracker.parseSnapshot payload) ev.deviceId = none
            ∧ ∃ pst, ev.previous = some pst
                ∧ Tracker.lookupKV s.knownDevices ev.deviceId = some pst))) := by
  have heff : (Tracker.processDeviceList lt payload s).2
      = (Tracker.diffEvents s.knownDevices (Tracker.parseSnapshot payload)).map
          (Tracker.emitEvent lt) := by
    unfold Tracker.processDeviceList
    simp [hl]
  refine ⟨rfl, ?_, ?_, ?_⟩
  · intro id st h1 h2
    rw [heff]
    exact List.mem_map.mpr ⟨_, Tracker.mem_diffEvents_change _ _ id st h1 h2, rfl⟩
  · intro id pst h1 h2
    rw [heff]
    exact List.mem_map.mpr
      ⟨_, Tracker.mem_diffEvents_offline _ _ id pst h1 h2, rfl⟩
  · intro eff heffmem
    rw [heff] at heffmem
    obtain ⟨ev, hev, hevf⟩ := List.mem_map.mp heffmem
    exact ⟨ev, hevf.symm,
      Tracker.diffEvents_sound _ _ ev hnd
        (Tracker.nodup_keys_parseSnapshot payload) hev⟩

/-- A tracker state knowing `a` as offline and `c` as a device. -/
def c9state : Tracker.TState :=
  { trackerSocket := some 0, socks := [default],
    knownDevices := [("a", "offline"), ("c", "device")],
    retryTimer := false, active := true, listener := true }

/-- Witness for C9: processing a snapshot listing only `a` as `device`
emits the state-change event for `a` (with its previous state), emits the
offline event for the vanished `c`, and replaces the mapping with the
parsed snapshot. -/
theorem c9_device_list_diff_witness :
    Tracker.TEffect.emit ⟨"a", "device", some "offline"⟩
      ∈ (Tracker.processDeviceList (fun _ => false) "a\tdevice\n" c9state).2
    ∧ Tracker.TEffect.emit ⟨"c", "offline", some "device"⟩
      ∈ (Tracker.processDeviceList (fun _ => false) "a\tdevice\n" c9state).2
    ∧ (Tracker.processDeviceList (fun _ => false) "a\tdevice\n"
        c9state).1.knownDevices = [("a", "device")] := by
  have h := c9_device_list_diff (fun _ => false) "a\tdevice\n" c9state rfl
    (by decide)
  refine ⟨?_, ?_, ?_⟩
  · exact h.2.1 "a" "device" (by decide) (by decide)
  · exact h.2.2.1 "c" "device" (by decide) (by decide)
  · rw [h.1]
    decide

end GeoMCP
